import Mathlib

/-!
# Verification of the D-Link smart plug HNAP client (`dlink_smart_plug.py`)

A shallow embedding of the authentication / request-signing engine
(`HNAPClient`), the SOAP transport (`NanoSOAPClient`) and the keyed hash
helper (`_hmac`) of `src/dlink_smart_plug.py`, together with theorems
settling the specification claims.

Machine integers are modelled as `Nat` with explicit reduction modulo
`2^32`; bytes as `Nat` values below 256.  The Python runtime facts the
code depends on (MD5, HMAC, UTF-8 encoding, dict truthiness, string
formatting) are implemented concretely so that every definition is
executable.
-/

namespace DlinkSmartPlug

/-! ## MD5 (RFC 1321), on byte lists

`hmac.new(key, msg)` in the source uses MD5 as its digest.  We implement
MD5 over `List Nat` (bytes), little-endian words as `Nat` modulo `2^32`.
-/

/-- Reduce modulo `2^32` (32-bit word arithmetic). -/
def w32 (n : Nat) : Nat := n % 4294967296

/-- Rotate a 32-bit word left by `s` bits (for `x < 2^32`). -/
def rotl32 (x s : Nat) : Nat := ((x <<< s) % 4294967296) + (x >>> (32 - s))

/-- MD5 auxiliary function for rounds 0-15. -/
def md5F (b c d : Nat) : Nat := (b &&& c) ||| ((b ^^^ 4294967295) &&& d)

/-- MD5 auxiliary function for rounds 16-31. -/
def md5G (b c d : Nat) : Nat := (b &&& d) ||| (c &&& (d ^^^ 4294967295))

/-- MD5 auxiliary function for rounds 32-47. -/
def md5H (b c d : Nat) : Nat := b ^^^ c ^^^ d

/-- MD5 auxiliary function for rounds 48-63. -/
def md5I (b c d : Nat) : Nat := c ^^^ (b ||| (d ^^^ 4294967295))

/-- The 64 MD5 sine-table constants `T[i] = floor(2^32 * |sin(i+1)|)`. -/
def md5T : List Nat :=
  [0xd76aa478, 0xe8c7b756, 0x242070db, 0xc1bdceee,
   0xf57c0faf, 0x4787c62a, 0xa8304613, 0xfd469501,
   0x698098d8, 0x8b44f7af, 0xffff5bb1, 0x895cd7be,
   0x6b901122, 0xfd987193, 0xa679438e, 0x49b40821,
   0xf61e2562, 0xc040b340, 0x265e5a51, 0xe9b6c7aa,
   0xd62f105d, 0x02441453, 0xd8a1e681, 0xe7d3fbc8,
   0x21e1cde6, 0xc33707d6, 0xf4d50d87, 0x455a14ed,
   0xa9e3e905, 0xfcefa3f8, 0x676f02d9, 0x8d2a4c8a,
   0xfffa3942, 0x8771f681, 0x6d9d6122, 0xfde5380c,
   0xa4beea44, 0x4bdecfa9, 0xf6bb4b60, 0xbebfbc70,
   0x289b7ec6, 0xeaa127fa, 0xd4ef3085, 0x04881d05,
   0xd9d4d039, 0xe6db99e5, 0x1fa27cf8, 0xc4ac5665,
   0xf4292244, 0x432aff97, 0xab9423a7, 0xfc93a039,
   0x655b59c3, 0x8f0ccc92, 0xffeff47d, 0x85845dd1,
   0x6fa87e4f, 0xfe2ce6e0, 0xa3014314, 0x4e0811a1,
   0xf7537e82, 0xbd3af235, 0x2ad7d2bb, 0xeb86d391]

/-- The 64 per-round left-rotation amounts. -/
def md5S : List Nat :=
  [7, 12, 17, 22, 7, 12, 17, 22, 7, 12, 17, 22, 7, 12, 17, 22,
   5, 9, 14, 20, 5, 9, 14, 20, 5, 9, 14, 20, 5, 9, 14, 20,
   4, 11, 16, 23, 4, 11, 16, 23, 4, 11, 16, 23, 4, 11, 16, 23,
   6, 10, 15, 21, 6, 10, 15, 21, 6, 10, 15, 21, 6, 10, 15, 21]

/-- Message-word index used in round `i`. -/
def md5K (i : Nat) : Nat :=
  if i < 16 then i
  else if i < 32 then (5 * i + 1) % 16
  else if i < 48 then (3 * i + 5) % 16
  else (7 * i) % 16

/-- Round function selected by the round index. -/
def md5Fun (i b c d : Nat) : Nat :=
  if i < 16 then md5F b c d
  else if i < 32 then md5G b c d
  else if i < 48 then md5H b c d
  else md5I b c d

/-- One MD5 round: registers `(a, b, c, d)` and the 16 message words `X`. -/
def md5Step (X : List Nat) (st : Nat × Nat × Nat × Nat) (i : Nat) :
    Nat × Nat × Nat × Nat :=
  let (a, b, c, d) := st
  let sum := w32 (a + md5Fun i b c d + X.getD (md5K i) 0 + md5T.getD i 0)
  (d, w32 (b + rotl32 sum (md5S.getD i 0)), b, c)

/-- Process one 16-word block, adding the result into the running state. -/
def md5Block (st : Nat × Nat × Nat × Nat) (X : List Nat) :
    Nat × Nat × Nat × Nat :=
  let r := (List.range 64).foldl (md5Step X) st
  (w32 (st.1 + r.1), w32 (st.2.1 + r.2.1),
   w32 (st.2.2.1 + r.2.2.1), w32 (st.2.2.2 + r.2.2.2))

/-- Combine groups of 4 bytes into little-endian 32-bit words (the input
length is always a multiple of 4; a ragged tail would be dropped). -/
def bytesToWordsLE : List Nat → List Nat
  | b0 :: b1 :: b2 :: b3 :: rest =>
    (b0 + b1 * 256 + b2 * 65536 + b3 * 16777216) :: bytesToWordsLE rest
  | _ => []

/-- Little-endian byte expansion of `n`, `k` bytes. -/
def natToBytesLE (k n : Nat) : List Nat :=
  match k with
  | 0 => []
  | k + 1 => n % 256 :: natToBytesLE k (n / 256)

/-- MD5 padding: `0x80`, zeros to 56 mod 64, then the 64-bit LE bit length. -/
def md5Pad (msg : List Nat) : List Nat :=
  let len := msg.length
  let zeros := (64 + 56 - (len % 64 + 1)) % 64
  msg ++ [0x80] ++ List.replicate zeros 0 ++
    natToBytesLE 8 ((8 * len) % 18446744073709551616)

/-- Run `md5Block` over successive 16-word blocks (the padded message is
always a whole number of blocks; a ragged tail would be dropped). -/
def md5Blocks (st : Nat × Nat × Nat × Nat) : List Nat → Nat × Nat × Nat × Nat
  | w0 :: w1 :: w2 :: w3 :: w4 :: w5 :: w6 :: w7 ::
    w8 :: w9 :: w10 :: w11 :: w12 :: w13 :: w14 :: w15 :: rest =>
    md5Blocks
      (md5Block st
        [w0, w1, w2, w3, w4, w5, w6, w7, w8, w9, w10, w11, w12, w13, w14, w15])
      rest
  | _ => st

/-- The MD5 digest of a byte list, as 16 bytes. -/
def md5Bytes (msg : List Nat) : List Nat :=
  let init : Nat × Nat × Nat × Nat :=
    (0x67452301, 0xefcdab89, 0x98badcfe, 0x10325476)
  let (a, b, c, d) := md5Blocks init (bytesToWordsLE (md5Pad msg))
  natToBytesLE 4 a ++ natToBytesLE 4 b ++ natToBytesLE 4 c ++ natToBytesLE 4 d

/-- Lowercase hex digit. -/
def hexChar (n : Nat) : Char :=
  if n < 10 then Char.ofNat (48 + n) else Char.ofNat (87 + n)

/-- Lowercase hex rendering of a byte list (Python `hexdigest()`). -/
def bytesToHex (bs : List Nat) : String :=
  String.mk (bs.foldr (fun b acc => hexChar (b / 16) :: hexChar (b % 16) :: acc) [])

/-- UTF-8 encoding of a single code point. -/
def utf8EncodeChar (n : Nat) : List Nat :=
  if n < 0x80 then [n]
  else if n < 0x800 then [0xc0 + n / 64, 0x80 + n % 64]
  else if n < 0x10000 then
    [0xe0 + n / 4096, 0x80 + n / 64 % 64, 0x80 + n % 64]
  else
    [0xf0 + n / 262144, 0x80 + n / 4096 % 64, 0x80 + n / 64 % 64, 0x80 + n % 64]

/-- UTF-8 bytes of a string (Python `str.encode('utf-8')`). -/
def utf8Bytes (s : String) : List Nat :=
  (s.toList.map fun c => utf8EncodeChar c.toNat).flatten

/-- HMAC-MD5 over byte lists (RFC 2104, block size 64). -/
def hmacMd5Bytes (key msg : List Nat) : List Nat :=
  let k0 := if key.length > 64 then md5Bytes key else key
  let kp := k0 ++ List.replicate (64 - k0.length) 0
  let ipad := kp.map (fun b => b ^^^ 0x36)
  let opad := kp.map (fun b => b ^^^ 0x5c)
  md5Bytes (opad ++ md5Bytes (ipad ++ msg))

/-- Lowercase hex HMAC-MD5 of UTF-8 strings:
`hmac.new(key.encode('utf-8'), message.encode('utf-8')).hexdigest()`. -/
def hmacMd5Hex (key message : String) : String :=
  bytesToHex (hmacMd5Bytes (utf8Bytes key) (utf8Bytes message))

/-- ASCII uppercase mapping of one character.  Every string the client
upper-cases is a hex digest, so the ASCII range is all that is exercised
of Python's `str.upper()`. -/
def asciiUpperChar (c : Char) : Char :=
  if 'a' ≤ c ∧ c ≤ 'z' then Char.ofNat (c.toNat - 32) else c

/-- ASCII lowercase mapping of one character (Python `str.lower()` on the
ASCII range, which is all the protocol strings use). -/
def asciiLowerChar (c : Char) : Char :=
  if 'A' ≤ c ∧ c ≤ 'Z' then Char.ofNat (c.toNat + 32) else c

/-- Python `str.upper()` (ASCII range). -/
def pyUpper (s : String) : String := String.mk (s.toList.map asciiUpperChar)

/-- Python `str.lower()` (ASCII range). -/
def pyLower (s : String) : String := String.mk (s.toList.map asciiLowerChar)

/-- Source `_hmac(key, message)`: uppercase hex HMAC-MD5 digest. -/
def _hmac (key message : String) : String :=
  pyUpper (hmacMd5Hex key message)

/-! ## The data model

Parsed XML responses (as produced by `xmltodict.parse`), the Python
exceptions the client can raise or observe, and string-keyed dicts. -/

/-- A parsed XML response: nested dicts with string leaves; repeated
sibling tags become lists. -/
inductive XVal where
  | str : String → XVal
  | node : List (String × XVal) → XVal
  | arr : List XVal → XVal

/-- The Python exceptions distinguished by the client's control flow.
`typeError` also stands for `AttributeError` (using a dict where a string
is required); the two are never told apart by any handler. -/
inductive PyErr where
  | expatError
  | keyError (key : String)
  | typeError
  | netError
  | exn (msg : String)
  | authError (msg : String)
  | reLoginUnreachable
deriving Repr, DecidableEq

/-- String-keyed, string-valued dict in insertion order. -/
abbrev Dict := List (String × String)

/-- Python dict assignment `d[k] = v`: replace the value in place
(keeping insertion order) or append.  Header dicts never hold duplicate
keys, so replacing the first occurrence is exact. -/
def dictSet (d : Dict) (k v : String) : Dict :=
  match d with
  | [] => [(k, v)]
  | kv :: rest => if kv.1 == k then (k, v) :: rest else kv :: dictSet rest k v

/-- Python dict read `d.get(k)`. -/
def dictGet (d : Dict) (k : String) : Option String :=
  match d with
  | [] => none
  | kv :: rest => if kv.1 == k then some kv.2 else dictGet rest k

/-- Python subscript `v[k]`: `KeyError` on a missing key, `TypeError`
when `v` is not a dict. -/
def XVal.getItem : XVal → String → Except PyErr XVal
  | .node kvs, k =>
    match kvs.find? (fun kv => kv.1 == k) with
    | some kv => .ok kv.2
    | none => .error (.keyError k)
  | _, _ => .error .typeError

/-- Where the code needs a string (concatenation, `.encode`, `.lower()`),
a non-string value raises (`TypeError`/`AttributeError`). -/
def XVal.asStr : XVal → Except PyErr String
  | .str s => .ok s
  | _ => .error .typeError

/-- Is `needle` a contiguous substring of the character list? -/
def listContainsSub (needle : List Char) : List Char → Bool
  | [] => needle.isEmpty
  | c :: t => needle.isPrefixOf (c :: t) || listContainsSub needle t

/-- Python `needle in v`: key membership for dicts, substring for
strings, element equality for lists. -/
def XVal.pyContains (v : XVal) (needle : String) : Bool :=
  match v with
  | .str s => listContainsSub needle.toList s.toList
  | .node kvs => kvs.any (fun kv => kv.1 == needle)
  | .arr xs => xs.any (fun x => match x with
      | .str s => s == needle
      | _ => false)

/-- Python `str(v)`.  Protocol cookie values are strings, for which this
is exact; for nested values it is a fixed repr-like rendering. -/
def XVal.pyStr : XVal → String
  | .str s => s
  | .node _ => "OrderedDict"
  | .arr _ => "list"

/-- Python iteration over a response value: list elements, dict keys, or
the characters of a string. -/
def XVal.pyIterVals : XVal → List XVal
  | .str s => s.toList.map (fun c => .str (String.mk [c]))
  | .node kvs => kvs.map (fun kv => .str kv.1)
  | .arr xs => xs

/-- Python truthiness of a string: non-empty. -/
def pyTruthyStr (s : String) : Bool := !(s == "")

/-- Truthiness of an optional string field (`None` and `''` are falsy). -/
def truthyOptStr : Option String → Bool
  | none => false
  | some s => pyTruthyStr s

/-- Truthiness of an optional response value (`None`, `''`, empty dict
and empty list are falsy). -/
def truthyOptX : Option XVal → Bool
  | none => false
  | some (.str s) => pyTruthyStr s
  | some (.node kvs) => !kvs.isEmpty
  | some (.arr xs) => !xs.isEmpty

/-- Truthiness of the cached action list (`not self.actions`). -/
def truthyActions : Option (List String) → Bool
  | none => false
  | some l => !l.isEmpty

/-- Python `str(...)` of the timestamp field (`None` prints as `None`). -/
def fmtOptNat : Option Nat → String
  | none => "None"
  | some n => Nat.repr n

/-- Python `x[x.rfind('/')+1:]`: the suffix after the last `/` (the whole string
when there is no `/`). -/
def lastSegment (s : String) : String :=
  String.mk ((s.toList.reverse.takeWhile (fun c => c ≠ '/')).reverse)

/-- Python `list(map(lambda x: x[x.rfind('/')+1:], v))`: each element must be a
string (`.rfind` on anything else raises). -/
def mapLastSegment : List XVal → Except PyErr (List String)
  | [] => .ok []
  | .str s :: rest => (mapLastSegment rest).map (fun l => lastSegment s :: l)
  | _ :: _ => .error .typeError

/-! ## The environment

Outgoing requests are logged; the device and the clock are scripts the
interpreter consumes. -/

/-- One outgoing HTTP POST: the action name, the headers actually sent
(the transport's header dict plus `SOAPAction`), and the call's
parameters (the payload of the XML body). -/
structure Request where
  method : String
  headers : Dict
  params : Dict
deriving Repr, DecidableEq

/-- One scripted device round trip: a parsed XML body, an XML parse
failure (`xml.parsers.expat.ExpatError` from `xmltodict.parse`), or an
HTTP-level failure (timeout, connection error). -/
inductive DeviceReply where
  | ok (parsed : XVal)
  | parseFail
  | netFail

/-- The external world: remaining device replies, remaining clock
readings, and the log of requests sent so far. -/
structure Env where
  replies : List DeviceReply
  times : List Nat
  log : List Request

/-- Consume the next scripted reply; an exhausted script behaves as a
network failure. -/
def Env.popReply : Env → DeviceReply × Env
  | ⟨[], ts, log⟩ => (.netFail, ⟨[], ts, log⟩)
  | ⟨r :: rs, ts, log⟩ => (r, ⟨rs, ts, log⟩)

/-- Consume the next clock reading (`int(datetime.now().timestamp())`,
whole seconds). -/
def Env.popTime : Env → Nat × Env
  | ⟨rs, [], log⟩ => (0, ⟨rs, [], log⟩)
  | ⟨rs, t :: ts, log⟩ => (t, ⟨rs, ts, log⟩)

/-- Append an outgoing request to the log. -/
def Env.push (env : Env) (r : Request) : Env :=
  { env with log := env.log ++ [r] }

/-- Constant `ACTION_BASE_URL` from the source. -/
def ACTION_BASE_URL : String := "http://purenetworks.com/HNAP1/"

/-! ## `NanoSOAPClient` (the SOAP transport) -/

namespace NanoSOAPClient

/-- Source `NanoSOAPClient.call(method, **kwargs)`: POST with the client's
headers plus `SOAPAction`, parse the body, require a `soap:Envelope`
top-level key, and return the value at
`Envelope -> Body -> methodResponse`.  The program always constructs the
client with `action = ACTION_BASE_URL`.  The XML serialization of the
request body is not needed by any claim; the request records the method,
headers and parameters it carries. -/
def call (action : String) (headers0 : Dict) (method : String)
    (params : Dict) (reply : DeviceReply) : Request × Except PyErr XVal :=
  let headers := dictSet headers0 "SOAPAction" ("\"" ++ action ++ method ++ "\"")
  let req : Request := ⟨method, headers, params⟩
  match reply with
  | .netFail => (req, .error .netError)
  | .parseFail => (req, .error .expatError)
  | .ok parsed =>
    if parsed.pyContains "soap:Envelope" = false then
      (req, .error (.exn "probably a bad response"))
    else
      match parsed.getItem "soap:Envelope" with
      | .error e => (req, .error e)
      | .ok envl =>
      match envl.getItem "soap:Body" with
      | .error e => (req, .error e)
      | .ok body => (req, body.getItem (method ++ "Response"))

end NanoSOAPClient

/-! ## `HNAPClient` (the auth engine) -/

/-- The mutable state of one `HNAPClient` (plus the header dict of the
`NanoSOAPClient` it owns, which persists across calls). -/
structure HNAPState where
  username : String
  password : String
  logged_in : Bool
  actions : Option (List String)
  private_key : Option String
  cookie : Option XVal
  auth_token : Option String
  timestamp : Option Nat
  settings : Option XVal
  client_headers : Dict

/-- A fresh client as built by `HNAPClient.__init__`. -/
def HNAPState.init (username password : String) : HNAPState :=
  ⟨username, password, false, none, none, none, none, none, none, []⟩

/-- State, environment and result of one operation. -/
structure Outcome (α : Type) where
  st : HNAPState
  env : Env
  res : Except PyErr α

namespace HNAPClient

/-- Source `HNAPClient._update_nauth_token(action)`: with a truthy private key,
read the clock and derive the per-call token; otherwise do nothing. -/
def _update_nauth_token (st : HNAPState) (env : Env) (action : String) :
    HNAPState × Env :=
  if truthyOptStr st.private_key = false then (st, env)
  else
    let (now, env') := env.popTime
    let token := _hmac (st.private_key.getD "")
      (Nat.repr now ++ "\"" ++ ACTION_BASE_URL ++ action ++ "\"")
    ({ st with timestamp := some now, auth_token := some token }, env')

/-- Source `HNAPClient.soap()`: push cookie and auth token (when truthy) into
the SOAP client's header dict. -/
def soap (st : HNAPState) : HNAPState :=
  let h1 := if truthyOptX st.cookie then
      dictSet st.client_headers "Cookie" ("uid=" ++ (st.cookie.getD (.str "")).pyStr)
    else st.client_headers
  let h2 := if truthyOptStr st.auth_token then
      dictSet h1 "HNAP_AUTH"
        (st.auth_token.getD "" ++ " " ++ fmtOptNat st.timestamp)
    else h1
  { st with client_headers := h2 }

/-- Source `HNAPClient._bad_response()`: clear the private key and raise the
generic error. -/
def _bad_response (st : HNAPState) : HNAPState × PyErr :=
  ({ st with private_key := none }, .exn "got error response from device")

/-- The `try`/`except` of `HNAPClient.call` (source lines 109-115): an
`ERROR` key in the result, like any raised exception, funnels into
`_bad_response`.  (`_bad_response` raised from inside the `try` is
re-caught by the bare `except:`, which runs it again; the net effect is
the same.) -/
def handleResult (st : HNAPState) (env : Env) :
    Except PyErr XVal → Outcome XVal
  | .error _ =>
    let (st, e) := _bad_response st
    ⟨st, env, .error e⟩
  | .ok result =>
    if result.pyContains "ERROR" then
      let (st, e) := _bad_response st
      ⟨st, env, .error e⟩
    else ⟨st, env, .ok result⟩

/-- The body of `HNAPClient.call` after the implicit-login step (source
lines 108-115): refresh the token, push headers, delegate to the
transport, and handle the result. -/
def callBody (st : HNAPState) (env : Env) (method : String)
    (params : Dict) : Outcome XVal :=
  let (st, env) := _update_nauth_token st env method
  let st := soap st
  let (reply, env) := env.popReply
  let (req, res) := NanoSOAPClient.call ACTION_BASE_URL st.client_headers
    method params reply
  handleResult st (env.push req) res

/-- Source `HNAPClient.call` as invoked from inside `login()`: the implicit-
login guard is checked faithfully, but its positive branch is
unreachable there (the method is `'Login'`, or the private key is a
fresh 32-character digest - see `login_no_relogin`), so it is mapped to
a marker error instead of a recursive login. -/
def callInner (st : HNAPState) (env : Env) (method : String)
    (params : Dict) : Outcome XVal :=
  if truthyOptStr st.private_key = false ∧ method ≠ "Login" then
    ⟨st, env, .error .reLoginUnreachable⟩
  else callBody st env method params

/-- Source `HNAPClient.device_actions()`: fetch `GetDeviceSettings`, cache the
settings payload, and reduce each supported action name to its last
path segment. -/
def device_actions (st : HNAPState) (env : Env) :
    Outcome (List String) :=
  match callInner st env "GetDeviceSettings" [] with
  | ⟨st, env, .error e⟩ => ⟨st, env, .error e⟩
  | ⟨st, env, .ok acts⟩ =>
    let st := { st with settings := some acts }
    match acts.getItem "SOAPActions" with
    | .error e => ⟨st, env, .error e⟩
    | .ok sa =>
    match sa.getItem "string" with
    | .error e => ⟨st, env, .error e⟩
    | .ok v =>
    match mapLastSegment v.pyIterVals with
    | .error e => ⟨st, env, .error e⟩
    | .ok names => ⟨st, env, .ok names⟩

/-- The `except xml.parsers.expat.ExpatError:` handler wrapped around the
second phase of `login()`. -/
def loginCatch : PyErr → PyErr
  | .expatError => .authError "Bad response from device"
  | e => e

/-- Phase one of `HNAPClient.login()` (source lines 57-70): the unsigned
`Login`/`request` exchange; store the cookie and derive the private key
`_hmac(public_key + str(password), challenge)`.  Returns the challenge
(the only phase-one value phase two still needs; the key and cookie live
in the state). -/
def loginPhase1 (st : HNAPState) (env : Env) : Outcome String :=
  let st := { st with logged_in := false }
  match callInner st env "Login"
      [("Action", "request"), ("Username", st.username),
       ("LoginPassword", ""), ("Captcha", "")] with
  | ⟨st, env, .error e⟩ => ⟨st, env, .error e⟩
  | ⟨st, env, .ok resp⟩ =>
    match resp.getItem "Challenge" with
    | .error e => ⟨st, env, .error e⟩
    | .ok challengeX =>
    match resp.getItem "PublicKey" with
    | .error e => ⟨st, env, .error e⟩
    | .ok publicKeyX =>
    match resp.getItem "Cookie" with
    | .error e => ⟨st, env, .error e⟩
    | .ok cookieX =>
    let st := { st with cookie := some cookieX }
    match publicKeyX.asStr with
    | .error e => ⟨st, env, .error e⟩
    | .ok public_key =>
    match challengeX.asStr with
    | .error e => ⟨st, env, .error e⟩
    | .ok challenge =>
    ⟨{ st with private_key := some (_hmac (public_key ++ st.password) challenge) },
     env, .ok challenge⟩

/-- Phase two of `HNAPClient.login()` (source lines 72-87): the signed
`Login`/`login` exchange inside the `try`, the `LoginResult` check, the
first-time action-list fetch, and `logged_in = True`.  Every error from
inside the `try` passes through `loginCatch`. -/
def loginPhase2 (st : HNAPState) (env : Env) (challenge : String) :
    Outcome Unit :=
  let password2 := _hmac (st.private_key.getD "") challenge
  match callInner st env "Login"
      [("Action", "login"), ("Username", st.username),
       ("LoginPassword", password2), ("Captcha", "")] with
  | ⟨st, env, .error e⟩ => ⟨st, env, .error (loginCatch e)⟩
  | ⟨st, env, .ok resp2⟩ =>
    match resp2.getItem "LoginResult" with
    | .error e => ⟨st, env, .error (loginCatch e)⟩
    | .ok lrX =>
    match lrX.asStr with
    | .error e => ⟨st, env, .error (loginCatch e)⟩
    | .ok lr =>
    if pyLower lr != "success" then
      ⟨st, env, .error (loginCatch (.authError "Incorrect username or password"))⟩
    else if truthyActions st.actions = false then
      match device_actions st env with
      | ⟨st, env, .error e⟩ => ⟨st, env, .error (loginCatch e)⟩
      | ⟨st, env, .ok names⟩ =>
        ⟨{ st with actions := some names, logged_in := true }, env, .ok ()⟩
    else
      ⟨{ st with logged_in := true }, env, .ok ()⟩

/-- Source `HNAPClient.login()`: phase one, then phase two. -/
def login (st : HNAPState) (env : Env) : Outcome Unit :=
  match loginPhase1 st env with
  | ⟨st, env, .error e⟩ => ⟨st, env, .error e⟩
  | ⟨st, env, .ok challenge⟩ => loginPhase2 st env challenge

/-- Source `HNAPClient.call(method, **kwargs)`: when the private key is falsy
and the method is not `'Login'`, run the full login handshake first,
then proceed with the request. -/
def call (st : HNAPState) (env : Env) (method : String)
    (params : Dict) : Outcome XVal :=
  if truthyOptStr st.private_key = false ∧ method ≠ "Login" then
    match login st env with
    | ⟨st, env, .error e⟩ => ⟨st, env, .error e⟩
    | ⟨st, env, .ok _⟩ => callBody st env method params
  else callBody st env method params

end HNAPClient

/-! ## Scenario constructors

Concrete device replies used by the theorems below. -/

/-- The parsed SOAP envelope a device wraps around a response body. -/
def mkEnvelope (method : String) (resp : XVal) : XVal :=
  XVal.node [("soap:Envelope", XVal.node [("soap:Body",
    XVal.node [(method ++ "Response", resp)])])]

/-- A phase-one login response body. -/
def challengeResp (challenge publicKey cookie : String) : XVal :=
  XVal.node [("Challenge", .str challenge), ("PublicKey", .str publicKey),
    ("Cookie", .str cookie)]

/-- A phase-two login response body. -/
def loginResultResp (r : String) : XVal :=
  XVal.node [("LoginResult", .str r)]

/-- A `GetDeviceSettings` response body advertising two actions. -/
def settingsResp : XVal :=
  XVal.node [("SOAPActions", XVal.node [("string", XVal.arr
    [.str "http://purenetworks.com/HNAP1/GetDeviceSettings",
     .str "http://purenetworks.com/HNAP1/Login"])])]

/-- A generic successful response body for method `m`. -/
def plainResp : XVal := XVal.node [("V", .str "1")]

/-- The scripted replies of a clean first `call(m)`: handshake phase
one, phase two, the action-list fetch, then the reply to `m` itself. -/
def goodScript (m : String) : List DeviceReply :=
  [.ok (mkEnvelope "Login" (challengeResp "ABC123" "DEADBEEF" "sess1")),
   .ok (mkEnvelope "Login" (loginResultResp "success")),
   .ok (mkEnvelope "GetDeviceSettings" settingsResp),
   .ok (mkEnvelope m plainResp)]

namespace HNAPClient

/-- The parameter dict of the unsigned phase-one login request. -/
def loginRequestParams (u : String) : Dict :=
  [("Action", "request"), ("Username", u), ("LoginPassword", ""), ("Captcha", "")]

/-- Errors the `try` block of `login()` can observe: never an
`ExpatError` (the transport's catch-all has already converted those) and
never the `'Bad response from device'` authentication error. -/
abbrev notBadAuth (e : PyErr) : Prop :=
  e ≠ .expatError ∧ e ≠ .authError "Bad response from device"

/-- Does a login outcome carry
`AuthenticationError('Bad response from device')`? -/
def isBadRespAuth : Except PyErr Unit → Bool
  | .error (.authError msg) => msg == "Bad response from device"
  | _ => false

/-- The headers `callBody` actually sends: the transport's header dict
after `soap()` pushed cookie and token, plus `SOAPAction`. -/
def sentHeaders (st : HNAPState) (env : Env) (m : String) : Dict :=
  dictSet (soap (_update_nauth_token st env m).1).client_headers "SOAPAction"
    ("\"" ++ ACTION_BASE_URL ++ m ++ "\"")

end HNAPClient

/-- The private key derived by the scripted handshake
(`Challenge ABC123`, `PublicKey DEADBEEF`, password `0000`). -/
def goodPK : String := _hmac "DEADBEEF0000" "ABC123"

/-- The token of the signed phase-two login request (time 1000). -/
def goodTok1 : String :=
  _hmac goodPK "1000\"http://purenetworks.com/HNAP1/Login\""

/-- The token of the `GetDeviceSettings` request (time 1001). -/
def goodTok2 : String :=
  _hmac goodPK "1001\"http://purenetworks.com/HNAP1/GetDeviceSettings\""

/-- The engine state after the scripted handshake succeeds. -/
def stAuth : HNAPState :=
  ⟨"Admin", "0000", true, some ["GetDeviceSettings", "Login"], some goodPK,
   some (.str "sess1"), some goodTok2, some 1001, some settingsResp,
   [("Cookie", "uid=sess1"), ("HNAP_AUTH", goodTok2 ++ " 1001")]⟩

/-- The unsigned phase-one login request of the scripted handshake. -/
def goodReq1 : Request :=
  ⟨"Login", [("SOAPAction", "\"http://purenetworks.com/HNAP1/Login\"")],
   [("Action", "request"), ("Username", "Admin"),
    ("LoginPassword", ""), ("Captcha", "")]⟩

/-- The signed phase-two login request of the scripted handshake. -/
def goodReq2 : Request :=
  ⟨"Login",
   [("Cookie", "uid=sess1"), ("HNAP_AUTH", goodTok1 ++ " 1000"),
    ("SOAPAction", "\"http://purenetworks.com/HNAP1/Login\"")],
   [("Action", "login"), ("Username", "Admin"),
    ("LoginPassword", _hmac goodPK "ABC123"), ("Captcha", "")]⟩

/-- The signed `GetDeviceSettings` request of the scripted handshake. -/
def goodReq3 : Request :=
  ⟨"GetDeviceSettings",
   [("Cookie", "uid=sess1"), ("HNAP_AUTH", goodTok2 ++ " 1001"),
    ("SOAPAction", "\"http://purenetworks.com/HNAP1/GetDeviceSettings\"")],
   []⟩

namespace HNAPClient

/-- First call of the token-reuse scenario: fresh client, clean
handshake, one successful device call. -/
def reuseRun1 : Outcome XVal :=
  call (HNAPState.init "Admin" "0000")
    ⟨goodScript "GetSocketSettings", [1000, 1001, 1002], []⟩
    "GetSocketSettings" [("ModuleID", "1")]

/-- Second call: the device reports an in-band `ERROR`, so the private
key is cleared while the freshly generated token (time 1003) stays. -/
def reuseRun2 : Outcome XVal :=
  call reuseRun1.st
    ⟨[.ok (mkEnvelope "GetSocketSettings" (.node [("ERROR", .str "1")]))],
     [1003], reuseRun1.env.log⟩
    "GetSocketSettings" [("ModuleID", "1")]

/-- Third call: the cleared key triggers an automatic re-login whose
unsigned phase-one request goes out with the stale headers. -/
def reuseRun3 : Outcome XVal :=
  call reuseRun2.st ⟨[.netFail], [], reuseRun2.env.log⟩
    "GetCurrentTemperature" []

end HNAPClient

/-! ## Basic lemmas -/

theorem dictGet_dictSet_self (d : Dict) (k v : String) :
    dictGet (dictSet d k v) k = some v := by
  induction d with
  | nil => simp [dictSet, dictGet]
  | cons kv rest ih =>
    by_cases h : kv.1 = k
    · simp [dictSet, dictGet, h]
    · simp [dictSet, dictGet, h, ih]

theorem dictGet_dictSet_other (d : Dict) (k k' v : String) (h : k' ≠ k) :
    dictGet (dictSet d k' v) k = dictGet d k := by
  induction d with
  | nil => simp [dictSet, dictGet, h]
  | cons kv rest ih =>
    by_cases h2 : kv.1 = k'
    · simp [dictSet, dictGet, h2, h, Ne.symm h]
    · by_cases h3 : kv.1 = k <;> simp [dictSet, dictGet, h2, h3, ih, Ne.symm h]

theorem md5Bytes_ne_nil (msg : List Nat) : md5Bytes msg ≠ [] := by
  simp only [md5Bytes]
  intro h
  exact absurd (congrArg List.length h) (by simp [natToBytesLE])

theorem hmac_ne_empty (k m : String) : _hmac k m ≠ "" := by
  have h1 : hmacMd5Bytes (utf8Bytes k) (utf8Bytes m) ≠ [] := by
    simp only [hmacMd5Bytes]
    exact md5Bytes_ne_nil _
  intro h
  have := congrArg String.data h
  simp only [_hmac, pyUpper, hmacMd5Hex, bytesToHex] at this
  rcases hbs : hmacMd5Bytes (utf8Bytes k) (utf8Bytes m) with _ | ⟨b, t⟩
  · exact h1 hbs
  · rw [hbs] at this
    simp at this

theorem hmac_truthy (k m : String) : pyTruthyStr (_hmac k m) = true := by
  simp [pyTruthyStr, hmac_ne_empty k m]

namespace HNAPClient

theorem update_token_frame (st : HNAPState) (env : Env) (a : String) :
    ((_update_nauth_token st env a).1).private_key = st.private_key ∧
    ((_update_nauth_token st env a).1).logged_in = st.logged_in ∧
    ((_update_nauth_token st env a).1).cookie = st.cookie ∧
    ((_update_nauth_token st env a).1).actions = st.actions ∧
    ((_update_nauth_token st env a).1).settings = st.settings ∧
    ((_update_nauth_token st env a).1).username = st.username ∧
    ((_update_nauth_token st env a).1).password = st.password ∧
    ((_update_nauth_token st env a).1).client_headers = st.client_headers := by
  unfold _update_nauth_token
  split <;> simp

theorem update_token_env (st : HNAPState) (env : Env) (a : String) :
    ((_update_nauth_token st env a).2).log = env.log ∧
    ((_update_nauth_token st env a).2).replies = env.replies := by
  obtain ⟨rs, ts, lg⟩ := env
  unfold _update_nauth_token
  split
  · simp
  · cases ts <;> simp [Env.popTime]

theorem popReply_env (env : Env) :
    ((env.popReply).2).log = env.log ∧ ((env.popReply).2).times = env.times := by
  obtain ⟨rs, ts, lg⟩ := env
  cases rs <;> simp [Env.popReply]

theorem nano_req (a : String) (h : Dict) (m : String) (ps : Dict)
    (r : DeviceReply) :
    (NanoSOAPClient.call a h m ps r).1 =
      ⟨m, dictSet h "SOAPAction" ("\"" ++ a ++ m ++ "\""), ps⟩ := by
  cases r with
  | ok p =>
    simp only [NanoSOAPClient.call]
    repeat' split
    all_goals rfl
  | parseFail => rfl
  | netFail => rfl

theorem handleResult_env (st : HNAPState) (env : Env) (r : Except PyErr XVal) :
    (handleResult st env r).env = env := by
  cases r with
  | error e => rfl
  | ok v =>
    simp only [handleResult]
    split <;> rfl

theorem handleResult_spec (st : HNAPState) (env : Env) (r : Except PyErr XVal) :
    ((∃ v, (handleResult st env r).res = Except.ok v ∧
        (handleResult st env r).st = st) ∨
      ((handleResult st env r).res =
          Except.error (.exn "got error response from device") ∧
        (handleResult st env r).st = { st with private_key := none })) := by
  cases r with
  | error e => right; exact ⟨rfl, rfl⟩
  | ok v =>
    simp only [handleResult]
    split
    · right; exact ⟨rfl, rfl⟩
    · left; exact ⟨v, rfl, rfl⟩

theorem callBody_eq (st : HNAPState) (env : Env) (m : String) (ps : Dict) :
    callBody st env m ps =
      handleResult (soap (_update_nauth_token st env m).1)
        ((((_update_nauth_token st env m).2).popReply.2).push
          ((NanoSOAPClient.call ACTION_BASE_URL
            (soap (_update_nauth_token st env m).1).client_headers m ps
            (((_update_nauth_token st env m).2).popReply.1)).1))
        ((NanoSOAPClient.call ACTION_BASE_URL
          (soap (_update_nauth_token st env m).1).client_headers m ps
          (((_update_nauth_token st env m).2).popReply.1)).2) := rfl

end HNAPClient
namespace HNAPClient

theorem soap_frame (st : HNAPState) :
    (soap st).private_key = st.private_key ∧ (soap st).logged_in = st.logged_in ∧
    (soap st).cookie = st.cookie ∧ (soap st).actions = st.actions ∧
    (soap st).settings = st.settings ∧ (soap st).username = st.username ∧
    (soap st).password = st.password ∧ (soap st).auth_token = st.auth_token ∧
    (soap st).timestamp = st.timestamp :=
  ⟨rfl, rfl, rfl, rfl, rfl, rfl, rfl, rfl, rfl⟩

theorem callBody_log (st : HNAPState) (env : Env) (m : String) (ps : Dict) :
    ∃ hdrs, (callBody st env m ps).env.log = env.log ++ [Request.mk m hdrs ps] := by
  refine ⟨dictSet (soap (_update_nauth_token st env m).1).client_headers
    "SOAPAction" ("\"" ++ ACTION_BASE_URL ++ m ++ "\""), ?_⟩
  rw [callBody_eq, handleResult_env]
  show (Env.push _ _).log = _
  rw [nano_req]
  simp only [Env.push]
  rw [(popReply_env _).1, (update_token_env st env m).1]

theorem callBody_res (st : HNAPState) (env : Env) (m : String) (ps : Dict) :
    (∃ v, (callBody st env m ps).res = Except.ok v ∧
        (callBody st env m ps).st = soap (_update_nauth_token st env m).1) ∨
      ((callBody st env m ps).res =
          Except.error (.exn "got error response from device") ∧
        (callBody st env m ps).st =
          { soap (_update_nauth_token st env m).1 with private_key := none }) := by
  rw [callBody_eq]
  exact handleResult_spec _ _ _

theorem callBody_frame (st : HNAPState) (env : Env) (m : String) (ps : Dict) :
    (callBody st env m ps).st.logged_in = st.logged_in ∧
    (callBody st env m ps).st.cookie = st.cookie ∧
    (callBody st env m ps).st.actions = st.actions ∧
    (callBody st env m ps).st.settings = st.settings ∧
    (callBody st env m ps).st.username = st.username ∧
    (callBody st env m ps).st.password = st.password := by
  have hu := update_token_frame st env m
  have hs := soap_frame (_update_nauth_token st env m).1
  rcases callBody_res st env m ps with ⟨v, _, hst⟩ | ⟨_, hst⟩ <;>
    rw [hst] <;>
    exact ⟨by simp [hs.2.1, hu.2.1], by simp [hs.2.2.1, hu.2.2.1],
      by simp [hs.2.2.2.1, hu.2.2.2.1], by simp [hs.2.2.2.2.1, hu.2.2.2.2.1],
      by simp [hs.2.2.2.2.2.1, hu.2.2.2.2.2.1],
      by simp [hs.2.2.2.2.2.2.1, hu.2.2.2.2.2.2.1]⟩

theorem callBody_error_shape (st : HNAPState) (env : Env) (m : String)
    (ps : Dict) (e : PyErr) (h : (callBody st env m ps).res = Except.error e) :
    e = .exn "got error response from device" := by
  rcases callBody_res st env m ps with ⟨v, hv, _⟩ | ⟨he, _⟩
  · rw [hv] at h; exact absurd h (by simp)
  · rw [he] at h; exact (Except.error.injEq _ _).mp h.symm

theorem callBody_error_pk (st : HNAPState) (env : Env) (m : String)
    (ps : Dict) (e : PyErr) (h : (callBody st env m ps).res = Except.error e) :
    (callBody st env m ps).st.private_key = none := by
  rcases callBody_res st env m ps with ⟨v, hv, _⟩ | ⟨_, hst⟩
  · rw [hv] at h; exact absurd h (by simp)
  · rw [hst]

theorem callBody_ok_pk (st : HNAPState) (env : Env) (m : String)
    (ps : Dict) (v : XVal) (h : (callBody st env m ps).res = Except.ok v) :
    (callBody st env m ps).st.private_key = st.private_key := by
  have hu := update_token_frame st env m
  have hs := soap_frame (_update_nauth_token st env m).1
  rcases callBody_res st env m ps with ⟨w, _, hst⟩ | ⟨he, _⟩
  · rw [hst]; rw [hs.1, hu.1]
  · rw [he] at h; exact absurd h (by simp)

theorem callInner_method_Login (st : HNAPState) (env : Env) (ps : Dict) :
    callInner st env "Login" ps = callBody st env "Login" ps := by
  simp [callInner]

theorem callInner_truthy (st : HNAPState) (env : Env) (m : String) (ps : Dict)
    (h : truthyOptStr st.private_key = true) :
    callInner st env m ps = callBody st env m ps := by
  simp [callInner, h]

theorem callInner_log_mono (st : HNAPState) (env : Env) (m : String) (ps : Dict) :
    ∃ t, (callInner st env m ps).env.log = env.log ++ t := by
  unfold callInner
  split
  · exact ⟨[], by simp⟩
  · obtain ⟨h, hl⟩ := callBody_log st env m ps
    exact ⟨_, hl⟩

end HNAPClient

namespace HNAPClient

theorem loginCatch_id (e : PyErr) (h : e ≠ .expatError) : loginCatch e = e := by
  cases e
  case expatError => exact absurd rfl h
  all_goals rfl

theorem getItem_err (v : XVal) (k : String) (e : PyErr)
    (h : v.getItem k = .error e) : e = .keyError k ∨ e = .typeError := by
  cases v with
  | str s => injection h with h2; exact .inr h2.symm
  | arr xs => injection h with h2; exact .inr h2.symm
  | node kvs =>
    rw [show (XVal.node kvs).getItem k =
      (match List.find? (fun kv => kv.1 == k) kvs with
        | some kv => Except.ok kv.2
        | none => Except.error (PyErr.keyError k)) from rfl] at h
    cases hf : List.find? (fun kv => kv.1 == k) kvs with
    | some kv => rw [hf] at h; exact nomatch h
    | none => rw [hf] at h; injection h with h2; exact .inl h2.symm

theorem asStr_err (v : XVal) (e : PyErr) (h : v.asStr = .error e) :
    e = .typeError := by
  cases v with
  | str s => exact nomatch h
  | node kvs => injection h with h2; exact h2.symm
  | arr xs => injection h with h2; exact h2.symm

theorem mapLastSegment_err (l : List XVal) (e : PyErr)
    (h : mapLastSegment l = .error e) : e = .typeError := by
  induction l with
  | nil => exact nomatch h
  | cons x rest ih =>
    cases x with
    | str s =>
      unfold mapLastSegment at h
      cases hr : mapLastSegment rest with
      | error e2 =>
        rw [hr] at h
        simp only [Except.map] at h
        injection h with h2
        subst h2
        exact ih hr
      | ok v => rw [hr] at h; exact nomatch h
    | node kvs => injection h with h2; exact h2.symm
    | arr xs => injection h with h2; exact h2.symm

theorem callInner_err (st : HNAPState) (env : Env) (m : String) (ps : Dict)
    (e : PyErr) (h : (callInner st env m ps).res = .error e) :
    e = .reLoginUnreachable ∨ e = .exn "got error response from device" := by
  unfold callInner at h
  split at h
  · injection h with h2; exact .inl h2.symm
  · exact .inr (callBody_error_shape _ _ _ _ _ h)

theorem notBadAuth_keyError (k : String) : notBadAuth (.keyError k) :=
  ⟨(fun hc => nomatch hc), (fun hc => nomatch hc)⟩

theorem notBadAuth_typeError : notBadAuth .typeError :=
  ⟨(fun hc => nomatch hc), (fun hc => nomatch hc)⟩

theorem notBadAuth_exn (s : String) : notBadAuth (.exn s) :=
  ⟨(fun hc => nomatch hc), (fun hc => nomatch hc)⟩

theorem notBadAuth_marker : notBadAuth .reLoginUnreachable :=
  ⟨(fun hc => nomatch hc), (fun hc => nomatch hc)⟩

theorem notBadAuth_incorrect :
    notBadAuth (.authError "Incorrect username or password") :=
  ⟨(fun hc => nomatch hc), by decide⟩

theorem callInner_err_notBad (st : HNAPState) (env : Env) (m : String)
    (ps : Dict) (e : PyErr) (h : (callInner st env m ps).res = .error e) :
    notBadAuth e := by
  rcases callInner_err st env m ps e h with h1 | h1 <;> rw [h1]
  · exact notBadAuth_marker
  · exact notBadAuth_exn _

theorem device_actions_err (st : HNAPState) (env : Env) (e : PyErr)
    (h : (device_actions st env).res = .error e) : notBadAuth e := by
  unfold device_actions at h
  rcases hO : callInner st env "GetDeviceSettings" [] with ⟨st1, env1, res1⟩
  rw [hO] at h
  cases res1 with
  | error e1 =>
    injection h with hx
    subst hx
    exact callInner_err_notBad _ _ _ _ _ (by rw [hO])
  | ok acts =>
    simp only [] at h
    split at h
    · rename_i heq
      injection h with hx
      subst hx
      rcases getItem_err _ _ _ heq with h4 | h4 <;> rw [h4]
      · exact notBadAuth_keyError _
      · exact notBadAuth_typeError
    · split at h
      · rename_i heq
        injection h with hx
        subst hx
        rcases getItem_err _ _ _ heq with h4 | h4 <;> rw [h4]
        · exact notBadAuth_keyError _
        · exact notBadAuth_typeError
      · split at h
        · rename_i heq
          injection h with hx
          subst hx
          rw [mapLastSegment_err _ _ heq]
          exact notBadAuth_typeError
        · exact nomatch h

end HNAPClient

namespace HNAPClient

theorem loginPhase1_err (st : HNAPState) (env : Env) (e : PyErr)
    (h : (loginPhase1 st env).res = .error e) : notBadAuth e := by
  unfold loginPhase1 at h
  simp only [] at h
  rcases hO : callInner { st with logged_in := false } env "Login"
      [("Action", "request"), ("Username", st.username),
       ("LoginPassword", ""), ("Captcha", "")] with ⟨st1, env1, res1⟩
  rw [hO] at h
  cases res1 with
  | error e1 =>
    injection h with hx
    subst hx
    exact callInner_err_notBad _ _ _ _ _ (by rw [hO])
  | ok resp =>
    simp only [] at h
    split at h
    · rename_i heq
      injection h with hx; subst hx
      rcases getItem_err _ _ _ heq with h4 | h4 <;> rw [h4]
      · exact notBadAuth_keyError _
      · exact notBadAuth_typeError
    · split at h
      · rename_i heq
        injection h with hx; subst hx
        rcases getItem_err _ _ _ heq with h4 | h4 <;> rw [h4]
        · exact notBadAuth_keyError _
        · exact notBadAuth_typeError
      · split at h
        · rename_i heq
          injection h with hx; subst hx
          rcases getItem_err _ _ _ heq with h4 | h4 <;> rw [h4]
          · exact notBadAuth_keyError _
          · exact notBadAuth_typeError
        · split at h
          · rename_i heq
            injection h with hx; subst hx
            rw [asStr_err _ _ heq]
            exact notBadAuth_typeError
          · split at h
            · rename_i heq
              injection h with hx; subst hx
              rw [asStr_err _ _ heq]
              exact notBadAuth_typeError
            · exact nomatch h

theorem loginCatch_notBad (e : PyErr) (h : notBadAuth e) :
    notBadAuth (loginCatch e) := by
  rw [loginCatch_id _ h.1]
  exact h

theorem loginPhase2_err (st : HNAPState) (env : Env) (c : String) (e : PyErr)
    (h : (loginPhase2 st env c).res = .error e) : notBadAuth e := by
  unfold loginPhase2 at h
  simp only [] at h
  rcases hO : callInner st env "Login"
      [("Action", "login"), ("Username", st.username),
       ("LoginPassword", _hmac (st.private_key.getD "") c), ("Captcha", "")]
    with ⟨st1, env1, res1⟩
  rw [hO] at h
  cases res1 with
  | error e1 =>
    injection h with hx
    subst hx
    have h1 := callInner_err_notBad _ _ _ _ _ (by rw [hO])
    rw [loginCatch_id _ h1.1]
    exact h1
  | ok resp2 =>
    simp only [] at h
    split at h
    · rename_i heq
      injection h with hx; subst hx
      apply loginCatch_notBad
      rcases getItem_err _ _ _ heq with h4 | h4 <;> rw [h4]
      · exact notBadAuth_keyError _
      · exact notBadAuth_typeError
    · split at h
      · rename_i heq
        injection h with hx; subst hx
        apply loginCatch_notBad
        rw [asStr_err _ _ heq]
        exact notBadAuth_typeError
      · split at h
        · injection h with hx; subst hx
          exact loginCatch_notBad _ notBadAuth_incorrect
        · split at h
          · rcases hD : device_actions st1 env1 with ⟨st2, env2, res2⟩
            rw [hD] at h
            cases res2 with
            | error e2 =>
              injection h with hx
              subst hx
              exact loginCatch_notBad _ (device_actions_err _ _ _ (by rw [hD]))
            | ok names => exact nomatch h
          · exact nomatch h

theorem login_err (st : HNAPState) (env : Env) (e : PyErr)
    (h : (login st env).res = .error e) : notBadAuth e := by
  unfold login at h
  rcases hO : loginPhase1 st env with ⟨st1, env1, res1⟩
  rw [hO] at h
  cases res1 with
  | error e1 =>
    injection h with hx
    subst hx
    exact loginPhase1_err _ _ _ (by rw [hO])
  | ok c => exact loginPhase2_err _ _ _ _ h

end HNAPClient

namespace HNAPClient

theorem loginPhase1_log (st : HNAPState) (env : Env) :
    ∃ hdrs, (loginPhase1 st env).env.log =
      env.log ++ [Request.mk "Login" hdrs (loginRequestParams st.username)] := by
  obtain ⟨hdrs, hl⟩ := callBody_log { st with logged_in := false } env "Login"
    [("Action", "request"), ("Username", st.username),
     ("LoginPassword", ""), ("Captcha", "")]
  refine ⟨hdrs, ?_⟩
  unfold loginPhase1
  simp only [callInner_method_Login, loginRequestParams]
  rcases hO : callBody { st with logged_in := false } env "Login"
      [("Action", "request"), ("Username", st.username),
       ("LoginPassword", ""), ("Captcha", "")] with ⟨st1, env1, res1⟩
  rw [hO] at hl
  simp only at hl
  cases res1 with
  | error e => exact hl
  | ok resp =>
    simp only []
    repeat' split
    all_goals exact hl


theorem device_actions_log_mono (st : HNAPState) (env : Env) :
    ∃ t, (device_actions st env).env.log = env.log ++ t := by
  obtain ⟨t, ht⟩ := callInner_log_mono st env "GetDeviceSettings" []
  refine ⟨t, ?_⟩
  unfold device_actions
  rcases hO : callInner st env "GetDeviceSettings" [] with ⟨st1, env1, res1⟩
  rw [hO] at ht
  cases res1 with
  | error e1 => exact ht
  | ok acts =>
    simp only []
    repeat' split
    all_goals exact ht

theorem loginPhase2_log_mono (st : HNAPState) (env : Env) (c : String) :
    ∃ t, (loginPhase2 st env c).env.log = env.log ++ t := by
  obtain ⟨t, ht⟩ := callInner_log_mono st env "Login"
    [("Action", "login"), ("Username", st.username),
     ("LoginPassword", _hmac (st.private_key.getD "") c), ("Captcha", "")]
  unfold loginPhase2
  simp only []
  rcases hO : callInner st env "Login"
      [("Action", "login"), ("Username", st.username),
       ("LoginPassword", _hmac (st.private_key.getD "") c), ("Captcha", "")]
    with ⟨st1, env1, res1⟩
  rw [hO] at ht
  cases res1 with
  | error e1 => exact ⟨t, ht⟩
  | ok resp2 =>
    simp only []
    split
    · exact ⟨t, ht⟩
    · split
      · exact ⟨t, ht⟩
      · split
        · exact ⟨t, ht⟩
        · split
          · rcases hD : device_actions st1 env1 with ⟨st2, env2, res2⟩
            obtain ⟨t2, ht2⟩ := device_actions_log_mono st1 env1
            rw [hD] at ht2
            cases res2 with
            | error e2 => exact ⟨t ++ t2, by rw [ht2, ht, List.append_assoc]⟩
            | ok names => exact ⟨t ++ t2, by rw [ht2, ht, List.append_assoc]⟩
          · exact ⟨t, ht⟩

theorem login_log (st : HNAPState) (env : Env) :
    ∃ hdrs t, (login st env).env.log =
      env.log ++ Request.mk "Login" hdrs (loginRequestParams st.username) :: t := by
  obtain ⟨hdrs, h1⟩ := loginPhase1_log st env
  unfold login
  rcases hO : loginPhase1 st env with ⟨st1, env1, res1⟩
  rw [hO] at h1
  cases res1 with
  | error e1 => exact ⟨hdrs, [], by simpa using h1⟩
  | ok c =>
    obtain ⟨t2, ht2⟩ := loginPhase2_log_mono st1 env1 c
    refine ⟨hdrs, t2, ?_⟩
    simp only []
    rw [ht2, h1, List.append_assoc]
    rfl

theorem call_relogin_first (st : HNAPState) (env : Env) (m : String) (ps : Dict)
    (hpk : truthyOptStr st.private_key = false) (hm : m ≠ "Login") :
    ∃ hdrs t, (call st env m ps).env.log =
      env.log ++ Request.mk "Login" hdrs (loginRequestParams st.username) :: t := by
  obtain ⟨hdrs, t, hl⟩ := login_log st env
  unfold call
  rw [if_pos ⟨hpk, hm⟩]
  rcases hO : login st env with ⟨st1, env1, res1⟩
  rw [hO] at hl
  cases res1 with
  | error e1 => exact ⟨hdrs, t, hl⟩
  | ok u =>
    obtain ⟨hdrs2, h2⟩ := callBody_log st1 env1 m ps
    refine ⟨hdrs, t ++ [Request.mk m hdrs2 ps], ?_⟩
    simp only []
    rw [h2, hl]
    simp [List.append_assoc]

theorem loginPhase1_ok_pk (st : HNAPState) (env : Env) (c : String)
    (h : (loginPhase1 st env).res = Except.ok c) :
    ∃ k, (loginPhase1 st env).st.private_key = some (_hmac k c) := by
  rcases hO : loginPhase1 st env with ⟨st1, env1, res1⟩
  have h' : res1 = Except.ok c := by rw [hO] at h; exact h
  subst h'
  unfold loginPhase1 at hO
  simp only [] at hO
  rcases hC : callInner { st with logged_in := false } env "Login"
      [("Action", "request"), ("Username", st.username),
       ("LoginPassword", ""), ("Captcha", "")] with ⟨st2, env2, res2⟩
  rw [hC] at hO
  cases res2 with
  | error e =>
    injection hO with h1 h2 h3
    exact nomatch h3
  | ok resp =>
    simp only [] at hO
    split at hO
    · injection hO with h1 h2 h3; exact nomatch h3
    · split at hO
      · injection hO with h1 h2 h3; exact nomatch h3
      · split at hO
        · injection hO with h1 h2 h3; exact nomatch h3
        · split at hO
          · injection hO with h1 h2 h3; exact nomatch h3
          · split at hO
            · injection hO with h1 h2 h3; exact nomatch h3
            · injection hO with h1 h2 h3
              injection h3 with h4
              subst h4
              rw [← h1]
              exact ⟨_, rfl⟩

end HNAPClient

namespace HNAPClient

theorem popReply_fst_of_replies (env : Env) (r : DeviceReply)
    (rs : List DeviceReply) (h : env.replies = r :: rs) :
    env.popReply.1 = r := by
  obtain ⟨rs0, ts0, lg0⟩ := env
  simp only [] at h
  subst h
  rfl

theorem nano_ok (a : String) (h : Dict) (m : String) (ps : Dict) (r : XVal) :
    (NanoSOAPClient.call a h m ps (.ok (mkEnvelope m r))).2 = Except.ok r := by
  simp [NanoSOAPClient.call, mkEnvelope, XVal.pyContains, XVal.getItem,
    List.find?, List.any]

theorem nano_netFail (a : String) (h : Dict) (m : String) (ps : Dict) :
    (NanoSOAPClient.call a h m ps .netFail).2 = Except.error .netError := rfl

theorem nano_parseFail (a : String) (h : Dict) (m : String) (ps : Dict) :
    (NanoSOAPClient.call a h m ps .parseFail).2 = Except.error .expatError := rfl

theorem handleResult_ok (st : HNAPState) (env : Env) (r : XVal)
    (hr : XVal.pyContains r "ERROR" = false) :
    handleResult st env (.ok r) = ⟨st, env, .ok r⟩ := by
  simp [handleResult, hr]

theorem handleResult_err (st : HNAPState) (env : Env) (e : PyErr) :
    handleResult st env (.error e) =
      ⟨{ st with private_key := none }, env,
       .error (.exn "got error response from device")⟩ := rfl

/-- A `callBody` whose scripted reply is a well-formed envelope for its
own method, with no `ERROR` marker, succeeds with the inner body. -/
theorem callBody_reply_ok (st : HNAPState) (m : String) (ps : Dict) (r : XVal)
    (rest : List DeviceReply) (ts : List Nat) (lg : List Request)
    (hr : XVal.pyContains r "ERROR" = false) :
    (callBody st ⟨.ok (mkEnvelope m r) :: rest, ts, lg⟩ m ps).res =
        Except.ok r ∧
      (callBody st ⟨.ok (mkEnvelope m r) :: rest, ts, lg⟩ m ps).st =
        soap (_update_nauth_token st
          ⟨.ok (mkEnvelope m r) :: rest, ts, lg⟩ m).1 := by
  have hrep : ((_update_nauth_token st
      ⟨.ok (mkEnvelope m r) :: rest, ts, lg⟩ m).2).popReply.1 =
      .ok (mkEnvelope m r) :=
    popReply_fst_of_replies _ _ rest
      (update_token_env st ⟨.ok (mkEnvelope m r) :: rest, ts, lg⟩ m).2
  rw [callBody_eq, hrep, nano_ok,
    handleResult_ok _ _ _ hr]
  exact ⟨rfl, rfl⟩

/-- A `callBody` whose scripted reply is a network or parse failure
clears the private key and fails with the generic error. -/
theorem callBody_reply_fail (st : HNAPState) (m : String) (ps : Dict)
    (reply : DeviceReply) (rest : List DeviceReply) (ts : List Nat)
    (lg : List Request) (hf : reply = .netFail ∨ reply = .parseFail) :
    (callBody st ⟨reply :: rest, ts, lg⟩ m ps).res =
        Except.error (.exn "got error response from device") ∧
      (callBody st ⟨reply :: rest, ts, lg⟩ m ps).st =
        { soap (_update_nauth_token st ⟨reply :: rest, ts, lg⟩ m).1 with
            private_key := none } := by
  have hrep : ((_update_nauth_token st ⟨reply :: rest, ts, lg⟩ m).2).popReply.1 =
      reply :=
    popReply_fst_of_replies _ _ rest
      (update_token_env st ⟨reply :: rest, ts, lg⟩ m).2
  rcases hf with hf | hf <;> subst hf <;> rw [callBody_eq, hrep]
  · rw [nano_netFail, handleResult_err]
    exact ⟨rfl, rfl⟩
  · rw [nano_parseFail, handleResult_err]
    exact ⟨rfl, rfl⟩

end HNAPClient

namespace HNAPClient

theorem challengeResp_no_error (c p k : String) :
    XVal.pyContains (challengeResp c p k) "ERROR" = false := by
  simp [challengeResp, XVal.pyContains]

theorem loginPhase1_concrete (st : HNAPState) (c p k : String)
    (rest : List DeviceReply) (ts : List Nat) (lg : List Request) :
    (loginPhase1 st
        ⟨.ok (mkEnvelope "Login" (challengeResp c p k)) :: rest, ts, lg⟩).res =
      Except.ok c ∧
    (loginPhase1 st
        ⟨.ok (mkEnvelope "Login" (challengeResp c p k)) :: rest, ts, lg⟩).st.private_key =
      some (_hmac (p ++ st.password) c) ∧
    (loginPhase1 st
        ⟨.ok (mkEnvelope "Login" (challengeResp c p k)) :: rest, ts, lg⟩).st.cookie =
      some (.str k) := by
  obtain ⟨hres, hst⟩ := callBody_reply_ok { st with logged_in := false } "Login"
    [("Action", "request"), ("Username", st.username),
     ("LoginPassword", ""), ("Captcha", "")]
    (challengeResp c p k) rest ts lg (challengeResp_no_error c p k)
  have hpw1 := (soap_frame ((_update_nauth_token { st with logged_in := false }
    ⟨.ok (mkEnvelope "Login" (challengeResp c p k)) :: rest, ts, lg⟩
    "Login").1)).2.2.2.2.2.2.1
  have hpw2 := (update_token_frame { st with logged_in := false }
    ⟨.ok (mkEnvelope "Login" (challengeResp c p k)) :: rest, ts, lg⟩
    "Login").2.2.2.2.2.2.1
  unfold loginPhase1
  simp only []
  rw [callInner_method_Login]
  rcases hO : callBody { st with logged_in := false }
      ⟨.ok (mkEnvelope "Login" (challengeResp c p k)) :: rest, ts, lg⟩ "Login"
      [("Action", "request"), ("Username", st.username),
       ("LoginPassword", ""), ("Captcha", "")] with ⟨st1, env1, res1⟩
  rw [hO] at hres hst
  have hres' : res1 = Except.ok (challengeResp c p k) := hres
  have hst' : st1 = soap (_update_nauth_token { st with logged_in := false }
    ⟨.ok (mkEnvelope "Login" (challengeResp c p k)) :: rest, ts, lg⟩ "Login").1 := hst
  subst hres'
  have hpw : st1.password = st.password := by
    rw [hst', hpw1, hpw2]
  simp only [challengeResp, XVal.getItem, XVal.asStr, List.find?]
  refine ⟨?_, ?_, ?_⟩ <;> simp [hpw]

end HNAPClient

namespace HNAPClient

/-- Claim C1: After phase one of `login()` returns `Challenge`,
`PublicKey` and `Cookie`, the engine sets `privateKey` to the uppercase
hexadecimal HMAC-MD5 digest with key `PublicKey ++ password` and message
`Challenge`; in particular, for challenge `ABC123`, public key
`DEADBEEF` and password `0000`, the HMAC key is the string
`DEADBEEF0000` and the message is `ABC123`. -/
theorem C1_privateKey_derivation (st : HNAPState) (c p k : String)
    (rest : List DeviceReply) (ts : List Nat) (lg : List Request) :
    ((loginPhase1 st
        ⟨.ok (mkEnvelope "Login" (challengeResp c p k)) :: rest, ts, lg⟩).res =
      Except.ok c ∧
     (loginPhase1 st
        ⟨.ok (mkEnvelope "Login" (challengeResp c p k)) :: rest, ts, lg⟩).st.private_key =
      some (_hmac (p ++ st.password) c)) ∧
    _hmac (p ++ st.password) c = pyUpper (hmacMd5Hex (p ++ st.password) c) ∧
    "DEADBEEF" ++ "0000" = "DEADBEEF0000" ∧
    (loginPhase1 (HNAPState.init "Admin" "0000")
        ⟨[.ok (mkEnvelope "Login" (challengeResp "ABC123" "DEADBEEF" "sess1"))],
         [], []⟩).st.private_key =
      some (_hmac "DEADBEEF0000" "ABC123") := by
  obtain ⟨h1, h2, h3⟩ := loginPhase1_concrete st c p k rest ts lg
  refine ⟨⟨h1, h2⟩, rfl, rfl, ?_⟩
  exact (loginPhase1_concrete (HNAPState.init "Admin" "0000") "ABC123"
    "DEADBEEF" "sess1" [] [] []).2.1

/-- Claim C2: With the private key set (a non-empty key string - it is
always a 32-character digest), `_update_nauth_token(action)` sets
`timestamp` to the next clock reading (the current Unix time in whole
seconds) and `authToken` to the uppercase hex HMAC-MD5, keyed by the
private key, of the timestamp followed by `ACTION_BASE_URL ++ action`
wrapped in double quotes; with the private key unset it changes
nothing. -/
theorem C2_token_derivation (st : HNAPState) (env : Env) (action : String)
    (k : String) :
    (st.private_key = some k → k ≠ "" →
      _update_nauth_token st env action =
        ({ st with
            timestamp := some env.popTime.1,
            auth_token := some (_hmac k
              (Nat.repr env.popTime.1 ++ "\"" ++ ACTION_BASE_URL ++ action ++ "\"")) },
         env.popTime.2)) ∧
    (st.private_key = none → _update_nauth_token st env action = (st, env)) := by
  constructor
  · intro hk hne
    unfold _update_nauth_token
    rw [if_neg]
    · rw [hk]
      rfl
    · rw [hk]
      simp [truthyOptStr, pyTruthyStr, hne]
  · intro hk
    unfold _update_nauth_token
    rw [if_pos]
    rw [hk]
    rfl

/-- Witness for C2 at a concrete state, key and clock. -/
theorem C2_token_derivation_witness :
    (_update_nauth_token
        ⟨"Admin", "0000", false, none, some "K", none, none, none, none, []⟩
        ⟨[], [1234], []⟩ "X" =
      (⟨"Admin", "0000", false, none, some "K", none,
        some (_hmac "K" "1234\"http://purenetworks.com/HNAP1/X\""),
        some 1234, none, []⟩, ⟨[], [], []⟩)) ∧
    (_update_nauth_token
        ⟨"Admin", "0000", false, none, none, none, none, none, none, []⟩
        ⟨[], [1234], []⟩ "X" =
      (⟨"Admin", "0000", false, none, none, none, none, none, none, []⟩,
       ⟨[], [1234], []⟩)) := by
  constructor
  · exact (C2_token_derivation _ _ "X" "K").1 rfl (by decide)
  · exact (C2_token_derivation _ _ "X" "K").2 rfl

end HNAPClient


theorem find?_key_any {α : Type} (p : α → Bool) (l : List α) (x : α)
    (h : l.find? p = some x) : l.any p = true := by
  induction l with
  | nil => exact nomatch h
  | cons hd tl ih =>
    cases hph : p hd with
    | true => simp [List.any_cons, hph]
    | false =>
      rw [List.find?_cons, hph] at h
      simp [List.any_cons, hph, ih h]

/-- Claim C7: The transport's `call`: a parsed response without a
top-level `soap:Envelope` key fails with the transport-level error
(`Exception('probably a bad response')`), not a crash or a silent empty
result; otherwise the nested value at
`Envelope -> Body -> methodResponse` is returned unchanged. -/
theorem C7_transport_envelope (a : String) (h0 : Dict) (m : String)
    (ps : Dict) (parsed envl body v : XVal) :
    (parsed.pyContains "soap:Envelope" = false →
      (NanoSOAPClient.call a h0 m ps (.ok parsed)).2 =
        Except.error (.exn "probably a bad response")) ∧
    (parsed.getItem "soap:Envelope" = .ok envl →
     envl.getItem "soap:Body" = .ok body →
     body.getItem (m ++ "Response") = .ok v →
      (NanoSOAPClient.call a h0 m ps (.ok parsed)).2 = Except.ok v) := by
  constructor
  · intro hmiss
    simp [NanoSOAPClient.call, hmiss]
  · intro h1 h2 h3
    have hc : parsed.pyContains "soap:Envelope" = true := by
      cases parsed with
      | str s => exact nomatch h1
      | arr xs => exact nomatch h1
      | node kvs =>
        rw [show (XVal.node kvs).getItem "soap:Envelope" =
          (match List.find? (fun kv => kv.1 == "soap:Envelope") kvs with
            | some kv => Except.ok kv.2
            | none => Except.error (PyErr.keyError "soap:Envelope")) from rfl] at h1
        cases hf : List.find? (fun kv => kv.1 == "soap:Envelope") kvs with
        | none => rw [hf] at h1; exact nomatch h1
        | some kv =>
          simp only [XVal.pyContains]
          exact find?_key_any _ _ _ hf
    simp [NanoSOAPClient.call, hc, h1, h2, h3]

/-- Witness for C7: a body with no envelope fails with the transport
error; a well-formed envelope yields the inner response. -/
theorem C7_transport_envelope_witness :
    ((NanoSOAPClient.call ACTION_BASE_URL [] "X" []
        (.ok (.node [("a", .str "b")]))).2 =
      Except.error (.exn "probably a bad response")) ∧
    ((NanoSOAPClient.call ACTION_BASE_URL [] "X" []
        (.ok (mkEnvelope "X" plainResp))).2 = Except.ok plainResp) := by
  constructor
  · exact (C7_transport_envelope ACTION_BASE_URL [] "X" []
      (.node [("a", .str "b")]) (.str "") (.str "") (.str "")).1 (by decide)
  · exact (C7_transport_envelope ACTION_BASE_URL [] "X" []
      (mkEnvelope "X" plainResp)
      (.node [("soap:Body", .node [("XResponse", plainResp)])])
      (.node [("XResponse", plainResp)]) plainResp).2
      rfl rfl rfl

namespace HNAPClient

theorem call_truthy (st : HNAPState) (env : Env) (m : String) (ps : Dict)
    (h : truthyOptStr st.private_key = true) :
    call st env m ps = callBody st env m ps := by
  unfold call
  rw [if_neg]
  intro hc
  rw [h] at hc
  exact absurd hc.1 (by simp)

/-- Claim C8: A `call()` failing after a successful login clears only
`privateKey`: `logged_in` stays `true` and the cookie, cached actions
and settings keep their values, so a caller can observe
`logged_in = true` while the session has no private key. -/
theorem C8_loggedin_stale (st : HNAPState) (env : Env) (m : String)
    (ps : Dict) (k : String) (e : PyErr)
    (hk : st.private_key = some k) (hne : k ≠ "")
    (hli : st.logged_in = true)
    (herr : (call st env m ps).res = Except.error e) :
    (call st env m ps).st.logged_in = true ∧
    (call st env m ps).st.private_key = none ∧
    (call st env m ps).st.cookie = st.cookie ∧
    (call st env m ps).st.actions = st.actions ∧
    (call st env m ps).st.settings = st.settings := by
  have htr : truthyOptStr st.private_key = true := by
    rw [hk]; simp [truthyOptStr, pyTruthyStr, hne]
  rw [call_truthy st env m ps htr] at herr ⊢
  refine ⟨?_, ?_, ?_, ?_, ?_⟩
  · rw [(callBody_frame st env m ps).1, hli]
  · exact callBody_error_pk _ _ _ _ _ herr
  · exact (callBody_frame st env m ps).2.1
  · exact (callBody_frame st env m ps).2.2.1
  · exact (callBody_frame st env m ps).2.2.2.1

/-- Witness for C8: a logged-in session, a network failure on the next
call. -/
theorem C8_loggedin_stale_witness :
    (call ⟨"Admin", "0000", true, some ["Login"], some "K",
        some (.str "sess1"), some "T", some 1000, none, []⟩
      ⟨[.netFail], [1001], []⟩ "X" []).st.logged_in = true ∧
    (call ⟨"Admin", "0000", true, some ["Login"], some "K",
        some (.str "sess1"), some "T", some 1000, none, []⟩
      ⟨[.netFail], [1001], []⟩ "X" []).st.private_key = none ∧
    (call ⟨"Admin", "0000", true, some ["Login"], some "K",
        some (.str "sess1"), some "T", some 1000, none, []⟩
      ⟨[.netFail], [1001], []⟩ "X" []).st.cookie = some (.str "sess1") ∧
    (call ⟨"Admin", "0000", true, some ["Login"], some "K",
        some (.str "sess1"), some "T", some 1000, none, []⟩
      ⟨[.netFail], [1001], []⟩ "X" []).st.actions = some ["Login"] ∧
    (call ⟨"Admin", "0000", true, some ["Login"], some "K",
        some (.str "sess1"), some "T", some 1000, none, []⟩
      ⟨[.netFail], [1001], []⟩ "X" []).st.settings = none :=
  C8_loggedin_stale _ _ "X" [] "K" (.exn "got error response from device")
    rfl (by decide) rfl rfl

end HNAPClient

namespace HNAPClient

theorem handleResult_marker (st : HNAPState) (env : Env) (r : XVal)
    (hr : XVal.pyContains r "ERROR" = true) :
    handleResult st env (.ok r) =
      ⟨{ st with private_key := none }, env,
       .error (.exn "got error response from device")⟩ := by
  simp [handleResult, hr]
  exact ⟨rfl, rfl⟩

theorem callBody_reply_marker (st : HNAPState) (m : String) (ps : Dict)
    (r : XVal) (rest : List DeviceReply) (ts : List Nat) (lg : List Request)
    (hr : XVal.pyContains r "ERROR" = true) :
    (callBody st ⟨.ok (mkEnvelope m r) :: rest, ts, lg⟩ m ps).res =
        Except.error (.exn "got error response from device") ∧
      (callBody st ⟨.ok (mkEnvelope m r) :: rest, ts, lg⟩ m ps).st =
        { soap (_update_nauth_token st
            ⟨.ok (mkEnvelope m r) :: rest, ts, lg⟩ m).1 with
          private_key := none } := by
  have hrep : ((_update_nauth_token st
      ⟨.ok (mkEnvelope m r) :: rest, ts, lg⟩ m).2).popReply.1 =
      .ok (mkEnvelope m r) :=
    popReply_fst_of_replies _ _ rest
      (update_token_env st ⟨.ok (mkEnvelope m r) :: rest, ts, lg⟩ m).2
  rw [callBody_eq, hrep, nano_ok, handleResult_marker _ _ _ hr]
  exact ⟨rfl, rfl⟩

/-- Claim C4: A `call()` whose transport delegation raises (network or
parse failure) or whose parsed result contains the key `ERROR` clears
`privateKey` and fails with the one generic error
`Exception('got error response from device')` that does not carry the
failure cause; a clean response is returned unchanged with the key
kept; and a following `call()` from the cleared state sends a `Login`
request first (re-triggers login). -/
theorem C4_call_failure_reset (st st2 : HNAPState) (env2 : Env)
    (m m' : String) (ps ps' : Dict) (k : String) (r : XVal)
    (reply : DeviceReply) (rest : List DeviceReply) (ts : List Nat)
    (lg : List Request) (hk : st.private_key = some k) (hne : k ≠ "") :
    (reply = .netFail ∨ reply = .parseFail →
      (call st ⟨reply :: rest, ts, lg⟩ m ps).res =
          Except.error (.exn "got error response from device") ∧
        (call st ⟨reply :: rest, ts, lg⟩ m ps).st.private_key = none) ∧
    (XVal.pyContains r "ERROR" = true →
      (call st ⟨.ok (mkEnvelope m r) :: rest, ts, lg⟩ m ps).res =
          Except.error (.exn "got error response from device") ∧
        (call st ⟨.ok (mkEnvelope m r) :: rest, ts, lg⟩ m ps).st.private_key =
          none) ∧
    (XVal.pyContains r "ERROR" = false →
      (call st ⟨.ok (mkEnvelope m r) :: rest, ts, lg⟩ m ps).res =
          Except.ok r ∧
        (call st ⟨.ok (mkEnvelope m r) :: rest, ts, lg⟩ m ps).st.private_key =
          st.private_key) ∧
    (st2.private_key = none → m' ≠ "Login" →
      ∃ hdrs t, (call st2 env2 m' ps').env.log =
        env2.log ++ Request.mk "Login" hdrs (loginRequestParams st2.username) :: t) := by
  have htr : truthyOptStr st.private_key = true := by
    rw [hk]; simp [truthyOptStr, pyTruthyStr, hne]
  refine ⟨?_, ?_, ?_, ?_⟩
  · intro hf
    rw [call_truthy _ _ _ _ htr]
    obtain ⟨h1, h2⟩ := callBody_reply_fail st m ps reply rest ts lg hf
    rw [h1, h2]
    exact ⟨rfl, rfl⟩
  · intro hr
    rw [call_truthy _ _ _ _ htr]
    obtain ⟨h1, h2⟩ := callBody_reply_marker st m ps r rest ts lg hr
    rw [h1, h2]
    exact ⟨rfl, rfl⟩
  · intro hr
    rw [call_truthy _ _ _ _ htr]
    obtain ⟨h1, h2⟩ := callBody_reply_ok st m ps r rest ts lg hr
    rw [h1, h2]
    refine ⟨rfl, ?_⟩
    rw [(soap_frame _).1, (update_token_frame _ _ _).1]
  · intro hpk hm
    exact call_relogin_first st2 env2 m' ps' (by rw [hpk]; rfl) hm

/-- Witness for C4: a concrete network failure, `ERROR` response, clean
response, and the re-login of the following call. -/
theorem C4_call_failure_reset_witness :
    ((call ⟨"Admin", "0000", true, none, some "K", none, none, none, none, []⟩
        ⟨[.netFail], [1000], []⟩ "X" []).res =
        Except.error (.exn "got error response from device") ∧
      (call ⟨"Admin", "0000", true, none, some "K", none, none, none, none, []⟩
        ⟨[.netFail], [1000], []⟩ "X" []).st.private_key = none) ∧
    ((call ⟨"Admin", "0000", true, none, some "K", none, none, none, none, []⟩
        ⟨[.ok (mkEnvelope "X" (.node [("ERROR", .str "1")]))], [1000], []⟩
        "X" []).res =
        Except.error (.exn "got error response from device")) ∧
    ((call ⟨"Admin", "0000", true, none, some "K", none, none, none, none, []⟩
        ⟨[.ok (mkEnvelope "X" plainResp)], [1000], []⟩ "X" []).res =
        Except.ok plainResp) ∧
    (∃ hdrs t,
      (call ⟨"Admin", "0000", true, none, none, none, none, none, none, []⟩
        ⟨[.netFail], [1000], []⟩ "Y" []).env.log =
      [] ++ Request.mk "Login" hdrs (loginRequestParams "Admin") :: t) := by
  have h := C4_call_failure_reset
    ⟨"Admin", "0000", true, none, some "K", none, none, none, none, []⟩
    ⟨"Admin", "0000", true, none, none, none, none, none, none, []⟩
    ⟨[.netFail], [1000], []⟩ "X" "Y" [] [] "K"
    (.node [("ERROR", .str "1")]) .netFail [] [1000] [] rfl (by decide)
  have h2 := C4_call_failure_reset
    ⟨"Admin", "0000", true, none, some "K", none, none, none, none, []⟩
    ⟨"Admin", "0000", true, none, none, none, none, none, none, []⟩
    ⟨[.netFail], [1000], []⟩ "X" "Y" [] [] "K"
    plainResp .netFail [] [1000] [] rfl (by decide)
  exact ⟨h.1 (Or.inl rfl), (h.2.1 (by decide)).1,
    (h2.2.2.1 (by decide)).1, h.2.2.2 rfl (by decide)⟩

end HNAPClient

namespace HNAPClient

theorem env_push_replies (env : Env) (q : Request) :
    (env.push q).replies = env.replies := rfl

theorem popReply_snd_replies (env : Env) (r : DeviceReply)
    (rs : List DeviceReply) (h : env.replies = r :: rs) :
    env.popReply.2.replies = rs := by
  obtain ⟨rs0, ts0, lg0⟩ := env
  simp only [] at h
  subst h
  rfl

theorem callBody_replies (st : HNAPState) (env : Env) (m : String)
    (ps : Dict) (r : DeviceReply) (rest : List DeviceReply)
    (h : env.replies = r :: rest) :
    (callBody st env m ps).env.replies = rest := by
  rw [callBody_eq, handleResult_env, env_push_replies]
  exact popReply_snd_replies _ r rest (by rw [(update_token_env st env m).2, h])

/-- Variant of `callBody_reply_ok` with the scripted reply given by a hypothesis on
the environment's reply list. -/
theorem callBody_reply_ok_of (st : HNAPState) (env : Env) (m : String)
    (ps : Dict) (r : XVal) (rest : List DeviceReply)
    (hrep : env.replies = .ok (mkEnvelope m r) :: rest)
    (hr : XVal.pyContains r "ERROR" = false) :
    (callBody st env m ps).res = Except.ok r ∧
      (callBody st env m ps).st = soap (_update_nauth_token st env m).1 := by
  have hrep1 : ((_update_nauth_token st env m).2).popReply.1 =
      .ok (mkEnvelope m r) :=
    popReply_fst_of_replies _ _ rest
      (by rw [(update_token_env st env m).2, hrep])
  rw [callBody_eq, hrep1, nano_ok, handleResult_ok _ _ _ hr]
  exact ⟨rfl, rfl⟩

/-- Phase one of login against a scripted challenge response: the full
effect on result, key, cookie, `logged_in` and the reply script. -/
theorem loginPhase1_full (st : HNAPState) (c p k : String)
    (rest : List DeviceReply) (ts : List Nat) (lg : List Request) :
    (loginPhase1 st
        ⟨.ok (mkEnvelope "Login" (challengeResp c p k)) :: rest, ts, lg⟩).res =
      Except.ok c ∧
    (loginPhase1 st
        ⟨.ok (mkEnvelope "Login" (challengeResp c p k)) :: rest, ts, lg⟩).st.private_key =
      some (_hmac (p ++ st.password) c) ∧
    (loginPhase1 st
        ⟨.ok (mkEnvelope "Login" (challengeResp c p k)) :: rest, ts, lg⟩).st.logged_in =
      false ∧
    (loginPhase1 st
        ⟨.ok (mkEnvelope "Login" (challengeResp c p k)) :: rest, ts, lg⟩).env.replies =
      rest := by
  obtain ⟨hres, hst⟩ := callBody_reply_ok { st with logged_in := false } "Login"
    [("Action", "request"), ("Username", st.username),
     ("LoginPassword", ""), ("Captcha", "")]
    (challengeResp c p k) rest ts lg (challengeResp_no_error c p k)
  have hreps := callBody_replies { st with logged_in := false }
    ⟨.ok (mkEnvelope "Login" (challengeResp c p k)) :: rest, ts, lg⟩ "Login"
    [("Action", "request"), ("Username", st.username),
     ("LoginPassword", ""), ("Captcha", "")]
    (.ok (mkEnvelope "Login" (challengeResp c p k))) rest rfl
  have hfr1 := soap_frame ((_update_nauth_token { st with logged_in := false }
    ⟨.ok (mkEnvelope "Login" (challengeResp c p k)) :: rest, ts, lg⟩ "Login").1)
  have hfr2 := update_token_frame { st with logged_in := false }
    ⟨.ok (mkEnvelope "Login" (challengeResp c p k)) :: rest, ts, lg⟩ "Login"
  unfold loginPhase1
  simp only []
  rw [callInner_method_Login]
  rcases hO : callBody { st with logged_in := false }
      ⟨.ok (mkEnvelope "Login" (challengeResp c p k)) :: rest, ts, lg⟩ "Login"
      [("Action", "request"), ("Username", st.username),
       ("LoginPassword", ""), ("Captcha", "")] with ⟨st1, env1, res1⟩
  rw [hO] at hres hst hreps
  have hres' : res1 = Except.ok (challengeResp c p k) := hres
  have hst' : st1 = soap (_update_nauth_token { st with logged_in := false }
    ⟨.ok (mkEnvelope "Login" (challengeResp c p k)) :: rest, ts, lg⟩ "Login").1 := hst
  subst hres'
  have hpw : st1.password = st.password := by
    rw [hst', hfr1.2.2.2.2.2.2.1, hfr2.2.2.2.2.2.2.1]
  have hli : st1.logged_in = false := by
    rw [hst', hfr1.2.1, hfr2.2.1]
  have hreps' : env1.replies = rest := hreps
  simp only [challengeResp, XVal.getItem, XVal.asStr, List.find?]
  refine ⟨?_, ?_, ?_, ?_⟩ <;> simp [hpw, hli, hreps']

end HNAPClient

namespace HNAPClient

/-- Claim C5, amended: When phase two's `LoginResult` is not `success`
(case-insensitively), `login()` fails with
`AuthenticationError('Incorrect username or password')` and leaves
`logged_in = false`, but the engine is *not* in the no-private-key
state: `privateKey` keeps the value phase one derived. -/
theorem C5_amended_login_failure (st : HNAPState) (c p k lr : String)
    (rest : List DeviceReply) (ts : List Nat) (lg : List Request)
    (hlr : pyLower lr ≠ "success") :
    (login st ⟨.ok (mkEnvelope "Login" (challengeResp c p k)) ::
        .ok (mkEnvelope "Login" (loginResultResp lr)) :: rest, ts, lg⟩).res =
      Except.error (.authError "Incorrect username or password") ∧
    (login st ⟨.ok (mkEnvelope "Login" (challengeResp c p k)) ::
        .ok (mkEnvelope "Login" (loginResultResp lr)) :: rest, ts, lg⟩).st.logged_in =
      false ∧
    (login st ⟨.ok (mkEnvelope "Login" (challengeResp c p k)) ::
        .ok (mkEnvelope "Login" (loginResultResp lr)) :: rest, ts, lg⟩).st.private_key =
      some (_hmac (p ++ st.password) c) := by
  obtain ⟨h1, h2, h3, h4⟩ := loginPhase1_full st c p k
    (.ok (mkEnvelope "Login" (loginResultResp lr)) :: rest) ts lg
  unfold login
  rcases hP : loginPhase1 st
      ⟨.ok (mkEnvelope "Login" (challengeResp c p k)) ::
        .ok (mkEnvelope "Login" (loginResultResp lr)) :: rest, ts, lg⟩
    with ⟨st1, env1, res1⟩
  rw [hP] at h1 h2 h3 h4
  have h1' : res1 = Except.ok c := h1
  subst h1'
  have h2' : st1.private_key = some (_hmac (p ++ st.password) c) := h2
  have h3' : st1.logged_in = false := h3
  have h4' : env1.replies =
    .ok (mkEnvelope "Login" (loginResultResp lr)) :: rest := h4
  obtain ⟨hbres, hbst⟩ := callBody_reply_ok_of st1 env1 "Login"
    [("Action", "login"), ("Username", st1.username),
     ("LoginPassword", _hmac (st1.private_key.getD "") c), ("Captcha", "")]
    (loginResultResp lr) rest h4'
    (by simp [loginResultResp, XVal.pyContains])
  unfold loginPhase2
  simp only []
  rw [callInner_method_Login]
  rcases hB : callBody st1 env1 "Login"
      [("Action", "login"), ("Username", st1.username),
       ("LoginPassword", _hmac (st1.private_key.getD "") c), ("Captcha", "")]
    with ⟨st2, env2, res2⟩
  rw [hB] at hbres hbst
  have hbres' : res2 = Except.ok (loginResultResp lr) := hbres
  subst hbres'
  have hbst' : st2 = soap (_update_nauth_token st1 env1 "Login").1 := hbst
  have hfr1 := soap_frame ((_update_nauth_token st1 env1 "Login").1)
  have hfr2 := update_token_frame st1 env1 "Login"
  have hpk2 : st2.private_key = some (_hmac (p ++ st.password) c) := by
    rw [hbst', hfr1.1, hfr2.1, h2']
  have hli2 : st2.logged_in = false := by
    rw [hbst', hfr1.2.1, hfr2.2.1, h3']
  have hbne : (pyLower lr != "success") = true := by
    simp [hlr]
  simp only [loginResultResp, XVal.getItem, XVal.asStr, List.find?]
  simp [hbne, hpk2, hli2, loginCatch]

end HNAPClient

namespace HNAPClient

set_option maxRecDepth 1000000 in
/-- Witness for the amended C5 at a concrete failed login. -/
theorem C5_amended_login_failure_witness :
    (login (HNAPState.init "Admin" "0000")
      ⟨[.ok (mkEnvelope "Login" (challengeResp "ABC123" "DEADBEEF" "sess1")),
        .ok (mkEnvelope "Login" (loginResultResp "FAILED"))], [1000], []⟩).res =
      Except.error (.authError "Incorrect username or password") ∧
    (login (HNAPState.init "Admin" "0000")
      ⟨[.ok (mkEnvelope "Login" (challengeResp "ABC123" "DEADBEEF" "sess1")),
        .ok (mkEnvelope "Login" (loginResultResp "FAILED"))], [1000], []⟩).st.logged_in =
      false ∧
    (login (HNAPState.init "Admin" "0000")
      ⟨[.ok (mkEnvelope "Login" (challengeResp "ABC123" "DEADBEEF" "sess1")),
        .ok (mkEnvelope "Login" (loginResultResp "FAILED"))], [1000], []⟩).st.private_key =
      some (_hmac ("DEADBEEF" ++ "0000") "ABC123") :=
  C5_amended_login_failure (HNAPState.init "Admin" "0000")
    "ABC123" "DEADBEEF" "sess1" "FAILED" [] [1000] [] (by decide)

set_option maxRecDepth 1000000 in
/-- Claim C5 is false as stated: at this concrete failed login the
engine raises `AuthenticationError('Incorrect username or password')`
but `privateKey` is *set* (to the phase-one digest), not unset. -/
theorem C5_counterexample :
    (login (HNAPState.init "Admin" "0000")
      ⟨[.ok (mkEnvelope "Login" (challengeResp "ABC123" "DEADBEEF" "sess1")),
        .ok (mkEnvelope "Login" (loginResultResp "FAILED"))], [1000], []⟩).res =
      Except.error (.authError "Incorrect username or password") ∧
    (login (HNAPState.init "Admin" "0000")
      ⟨[.ok (mkEnvelope "Login" (challengeResp "ABC123" "DEADBEEF" "sess1")),
        .ok (mkEnvelope "Login" (loginResultResp "FAILED"))], [1000], []⟩).st.private_key.isSome =
      true := by
  exact ⟨rfl, rfl⟩

end HNAPClient

namespace HNAPClient

/-- Claim C6, amended: `login()` never reports
`AuthenticationError('Bad response from device')`: the bare `except:`
in `call()` converts every `ExpatError` into the generic
`Exception('got error response from device')` before login's
`except ExpatError` handler can see it, so that handler is dead code.
An XML-parse failure in either phase surfaces as the generic error. -/
theorem C6_amended_parse_failures (st : HNAPState) (env : Env) :
    isBadRespAuth (login st env).res = false ∧
    (login (HNAPState.init "Admin" "0000") ⟨[.parseFail], [], []⟩).res =
      Except.error (.exn "got error response from device") ∧
    (login (HNAPState.init "Admin" "0000")
      ⟨[.ok (mkEnvelope "Login" (challengeResp "ABC123" "DEADBEEF" "sess1")),
        .parseFail], [1000], []⟩).res =
      Except.error (.exn "got error response from device") ∧
    (login (HNAPState.init "Admin" "0000")
      ⟨[.ok (mkEnvelope "Login" (challengeResp "ABC123" "DEADBEEF" "sess1")),
        .parseFail], [1000], []⟩).st.private_key = none := by
  refine ⟨?_, rfl, rfl, rfl⟩
  cases hres : (login st env).res with
  | ok u => rfl
  | error e =>
    have hn := login_err st env e hres
    cases e
    case authError msg =>
      simp only [isBadRespAuth]
      simp [show msg ≠ "Bad response from device" from
        fun hh => hn.2 (by rw [hh])]
    all_goals rfl

/-- Claim C6 is false as stated: this XML-parse failure during the login
sequence is reported as the generic
`Exception('got error response from device')`, not as
`AuthenticationError('Bad response from device')`. -/
theorem C6_counterexample :
    (login (HNAPState.init "Admin" "0000")
      ⟨[.ok (mkEnvelope "Login" (challengeResp "ABC123" "DEADBEEF" "sess1")),
        .parseFail], [1000], []⟩).res =
      Except.error (.exn "got error response from device") ∧
    isBadRespAuth (login (HNAPState.init "Admin" "0000")
      ⟨[.ok (mkEnvelope "Login" (challengeResp "ABC123" "DEADBEEF" "sess1")),
        .parseFail], [1000], []⟩).res = false := by
  exact ⟨rfl, rfl⟩

set_option maxRecDepth 1000000 in
/-- Running `login()` on a fresh client against the scripted handshake:
the full resulting state, remaining scripts and request log. -/
theorem login_good (rest : List DeviceReply) (ts : List Nat) :
    login (HNAPState.init "Admin" "0000")
      ⟨.ok (mkEnvelope "Login" (challengeResp "ABC123" "DEADBEEF" "sess1")) ::
       .ok (mkEnvelope "Login" (loginResultResp "success")) ::
       .ok (mkEnvelope "GetDeviceSettings" settingsResp) :: rest,
       1000 :: 1001 :: ts, []⟩ =
      ⟨stAuth, ⟨rest, ts, [goodReq1, goodReq2, goodReq3]⟩, .ok ()⟩ := rfl

end HNAPClient

namespace HNAPClient

theorem update_token_some (st : HNAPState) (env : Env) (action k : String)
    (hk : st.private_key = some k) (hne : k ≠ "") :
    _update_nauth_token st env action =
      ({ st with
          timestamp := some env.popTime.1,
          auth_token := some (_hmac k
            (Nat.repr env.popTime.1 ++ "\"" ++ ACTION_BASE_URL ++ action ++ "\"")) },
       env.popTime.2) := by
  unfold _update_nauth_token
  rw [if_neg]
  · rw [hk]
    rfl
  · rw [hk]
    simp [truthyOptStr, pyTruthyStr, hne]

theorem callBody_log_explicit (st : HNAPState) (env : Env) (m : String)
    (ps : Dict) :
    (callBody st env m ps).env.log =
      env.log ++ [Request.mk m (sentHeaders st env m) ps] := by
  rw [callBody_eq, handleResult_env]
  show (Env.push _ _).log = _
  rw [nano_req]
  simp only [Env.push, sentHeaders]
  rw [(popReply_env _).1, (update_token_env st env m).1]

set_option maxRecDepth 1000000 in
theorem sentHeaders_good (m : String) :
    dictGet (sentHeaders stAuth
      ⟨[.ok (mkEnvelope m plainResp)], [1002], [goodReq1, goodReq2, goodReq3]⟩
      m) "HNAP_AUTH" =
      some (_hmac goodPK
        (Nat.repr 1002 ++ "\"" ++ ACTION_BASE_URL ++ m ++ "\"") ++ " " ++
        Nat.repr 1002) := by
  unfold sentHeaders
  rw [update_token_some stAuth _ m goodPK rfl (hmac_ne_empty _ _)]
  rw [dictGet_dictSet_other _ _ _ _ (by decide)]
  simp only [soap, truthyOptStr, truthyOptX, hmac_truthy, pyTruthyStr]
  simp only [Env.popTime, fmtOptNat]
  rw [if_pos (by simp [hmac_ne_empty])]
  rw [dictGet_dictSet_self]
  rfl

end HNAPClient

namespace HNAPClient

theorem call_method_Login (st : HNAPState) (env : Env) (ps : Dict) :
    call st env "Login" ps = callBody st env "Login" ps := by
  unfold call
  rw [if_neg]
  rintro ⟨-, hc⟩
  exact hc rfl

set_option maxRecDepth 1000000 in
/-- Claim C3: With the private key unset and a method other than
`Login`, `call()` runs the full two-phase handshake (exactly one pair
of `Login` requests plus the action-list fetch) before sending the
original request, which then carries a fresh `HNAP_AUTH` signature;
with the key already set, or for the `Login` method itself, exactly one
request is sent and no implicit login is triggered. -/
theorem C3_implicit_login (m : String) (ps : Dict) (st : HNAPState)
    (env : Env) (k : String) (hm : m ≠ "Login")
    (hk : st.private_key = some k) (hne : k ≠ "") :
    ((call (HNAPState.init "Admin" "0000")
        ⟨goodScript m, [1000, 1001, 1002], []⟩ m ps).env.log =
      [goodReq1, goodReq2, goodReq3,
       Request.mk m (sentHeaders stAuth
         ⟨[.ok (mkEnvelope m plainResp)], [1002],
          [goodReq1, goodReq2, goodReq3]⟩ m) ps] ∧
     (call (HNAPState.init "Admin" "0000")
        ⟨goodScript m, [1000, 1001, 1002], []⟩ m ps).env.log.map
          Request.method = ["Login", "Login", "GetDeviceSettings", m] ∧
     ((call (HNAPState.init "Admin" "0000")
        ⟨goodScript m, [1000, 1001, 1002], []⟩ m ps).env.log.filter
          (fun r => r.method == "Login")).length = 2 ∧
     dictGet (sentHeaders stAuth
         ⟨[.ok (mkEnvelope m plainResp)], [1002],
          [goodReq1, goodReq2, goodReq3]⟩ m) "HNAP_AUTH" =
       some (_hmac goodPK
         (Nat.repr 1002 ++ "\"" ++ ACTION_BASE_URL ++ m ++ "\"") ++ " " ++
         Nat.repr 1002) ∧
     (call (HNAPState.init "Admin" "0000")
        ⟨goodScript m, [1000, 1001, 1002], []⟩ m ps).res =
       Except.ok plainResp) ∧
    (call st env m ps).env.log.map Request.method =
      env.log.map Request.method ++ [m] ∧
    (call st env "Login" ps).env.log.map Request.method =
      env.log.map Request.method ++ ["Login"] := by
  have hA : call (HNAPState.init "Admin" "0000")
      ⟨goodScript m, [1000, 1001, 1002], []⟩ m ps =
      callBody stAuth
        ⟨[.ok (mkEnvelope m plainResp)], [1002],
         [goodReq1, goodReq2, goodReq3]⟩ m ps := by
    unfold call
    rw [if_pos ⟨rfl, hm⟩]
    simp only [goodScript]
    rw [login_good [.ok (mkEnvelope m plainResp)] [1002]]
  have hlog := callBody_log_explicit stAuth
    ⟨[.ok (mkEnvelope m plainResp)], [1002],
     [goodReq1, goodReq2, goodReq3]⟩ m ps
  obtain ⟨hres, -⟩ := callBody_reply_ok stAuth m ps plainResp [] [1002]
    [goodReq1, goodReq2, goodReq3] (by decide)
  have hmb : (m == "Login") = false := by
    simp [hm]
  refine ⟨⟨?_, ?_, ?_, sentHeaders_good m, ?_⟩, ?_, ?_⟩
  · rw [hA, hlog]
    rfl
  · rw [hA, hlog]
    simp [goodReq1, goodReq2, goodReq3]
  · rw [hA, hlog]
    simp [goodReq1, goodReq2, goodReq3, List.filter, hmb]
  · rw [hA, hres]
  · rw [call_truthy st env m ps
      (by rw [hk]; simp [truthyOptStr, pyTruthyStr, hne])]
    rw [callBody_log_explicit]
    simp
  · rw [call_method_Login, callBody_log_explicit]
    simp

set_option maxRecDepth 1000000 in
/-- Witness for C3: a fresh client's `GetSocketSettings` call logs the
handshake then the signed call; a keyed client's calls log exactly one
request. -/
theorem C3_implicit_login_witness :
    (call (HNAPState.init "Admin" "0000")
        ⟨goodScript "GetSocketSettings", [1000, 1001, 1002], []⟩
        "GetSocketSettings" [("ModuleID", "1")]).env.log.map Request.method =
      ["Login", "Login", "GetDeviceSettings", "GetSocketSettings"] ∧
    (call ⟨"Admin", "0000", true, none, some "K", none, none, none, none, []⟩
        ⟨[], [], []⟩ "GetSocketSettings"
        [("ModuleID", "1")]).env.log.map Request.method =
      ["GetSocketSettings"] ∧
    (call ⟨"Admin", "0000", true, none, some "K", none, none, none, none, []⟩
        ⟨[], [], []⟩ "Login"
        [("ModuleID", "1")]).env.log.map Request.method = ["Login"] := by
  have h := C3_implicit_login "GetSocketSettings" [("ModuleID", "1")]
    ⟨"Admin", "0000", true, none, some "K", none, none, none, none, []⟩
    ⟨[], [], []⟩ "K" (by decide) rfl (by decide)
  exact ⟨h.1.2.1, by simpa using h.2.1, by simpa using h.2.2⟩

end HNAPClient

namespace HNAPClient

theorem update_token_none (st : HNAPState) (env : Env) (action : String)
    (hk : st.private_key = none) :
    _update_nauth_token st env action = (st, env) := by
  unfold _update_nauth_token
  rw [if_pos]
  rw [hk]
  rfl

theorem callBody_auth_ts (st : HNAPState) (env : Env) (m : String)
    (ps : Dict) :
    (callBody st env m ps).st.auth_token =
        ((_update_nauth_token st env m).1).auth_token ∧
      (callBody st env m ps).st.timestamp =
        ((_update_nauth_token st env m).1).timestamp := by
  rcases callBody_res st env m ps with ⟨v, _, hst⟩ | ⟨_, hst⟩ <;> rw [hst] <;>
    exact ⟨(soap_frame _).2.2.2.2.2.2.2.1, (soap_frame _).2.2.2.2.2.2.2.2⟩

set_option maxRecDepth 1000000 in
/-- Claim C9, amended: Before every *signed* call (private key truthy),
`authToken` and `timestamp` are regenerated together from the current
private key and the fresh pair is what the outgoing request carries in
`HNAP_AUTH`.  (The claim's universal "no outgoing request ever carries
a token computed for an earlier call" is false: see the
counterexample - the unsigned re-login request reuses the stale
header.) -/
theorem C9_amended_signed_calls (st : HNAPState) (env : Env) (m : String)
    (ps : Dict) (k : String) (hk : st.private_key = some k) (hne : k ≠ "") :
    (call st env m ps).env.log =
      env.log ++ [Request.mk m (sentHeaders st env m) ps] ∧
    dictGet (sentHeaders st env m) "HNAP_AUTH" =
      some (_hmac k (Nat.repr env.popTime.1 ++ "\"" ++ ACTION_BASE_URL ++
        m ++ "\"") ++ " " ++ Nat.repr env.popTime.1) ∧
    (call st env m ps).st.auth_token =
      some (_hmac k (Nat.repr env.popTime.1 ++ "\"" ++ ACTION_BASE_URL ++
        m ++ "\"")) ∧
    (call st env m ps).st.timestamp = some env.popTime.1 := by
  have htr : truthyOptStr st.private_key = true := by
    rw [hk]; simp [truthyOptStr, pyTruthyStr, hne]
  have hupd := update_token_some st env m k hk hne
  rw [call_truthy st env m ps htr]
  refine ⟨callBody_log_explicit st env m ps, ?_, ?_, ?_⟩
  · unfold sentHeaders
    rw [hupd]
    rw [dictGet_dictSet_other _ _ _ _ (by decide)]
    simp only [soap, truthyOptStr, hmac_truthy, pyTruthyStr]
    rw [if_pos (by simp [hmac_ne_empty])]
    rw [dictGet_dictSet_self]
    rfl
  · rw [(callBody_auth_ts st env m ps).1, hupd]
  · rw [(callBody_auth_ts st env m ps).2, hupd]

set_option maxRecDepth 1000000 in
/-- Witness for the amended C9 at a concrete signed call. -/
theorem C9_amended_signed_calls_witness :
    (call ⟨"Admin", "0000", true, none, some "K", none, none, none, none, []⟩
        ⟨[.netFail], [1500], []⟩ "X" []).env.log =
      [] ++ [Request.mk "X"
        (sentHeaders
          ⟨"Admin", "0000", true, none, some "K", none, none, none, none, []⟩
          ⟨[.netFail], [1500], []⟩ "X") []] ∧
    dictGet (sentHeaders
        ⟨"Admin", "0000", true, none, some "K", none, none, none, none, []⟩
        ⟨[.netFail], [1500], []⟩ "X") "HNAP_AUTH" =
      some (_hmac "K" (Nat.repr 1500 ++ "\"" ++ ACTION_BASE_URL ++
        "X" ++ "\"") ++ " " ++ Nat.repr 1500) ∧
    (call ⟨"Admin", "0000", true, none, some "K", none, none, none, none, []⟩
        ⟨[.netFail], [1500], []⟩ "X" []).st.auth_token =
      some (_hmac "K" (Nat.repr 1500 ++ "\"" ++ ACTION_BASE_URL ++ "X" ++ "\"")) ∧
    (call ⟨"Admin", "0000", true, none, some "K", none, none, none, none, []⟩
        ⟨[.netFail], [1500], []⟩ "X" []).st.timestamp = some 1500 :=
  C9_amended_signed_calls _ _ "X" [] "K" rfl (by decide)

set_option maxRecDepth 1000000 in
/-- Claim C9 is false as stated: after the failed second call the private
key is `none`, no token can be regenerated, and the next outgoing
request (the re-login's phase one, log index 5) carries in `HNAP_AUTH`
exactly the token that was computed for the earlier call (log index
4). -/
theorem C9_counterexample :
    reuseRun2.st.private_key = none ∧
    (reuseRun3.env.log.get? 5).map Request.method = some "Login" ∧
    (reuseRun3.env.log.get? 4).map Request.method =
      some "GetSocketSettings" ∧
    ((reuseRun3.env.log.get? 5).map fun r => dictGet r.headers "HNAP_AUTH") =
      ((reuseRun3.env.log.get? 4).map fun r => dictGet r.headers "HNAP_AUTH") ∧
    ((reuseRun3.env.log.get? 5).map fun r =>
      (dictGet r.headers "HNAP_AUTH").isSome) = some true := by
  exact ⟨rfl, rfl, rfl, rfl, rfl⟩

end HNAPClient

namespace HNAPClient

theorem loginPhase1_log_explicit (st : HNAPState) (env : Env) :
    (loginPhase1 st env).env.log = env.log ++
      [Request.mk "Login"
        (sentHeaders { st with logged_in := false } env "Login")
        (loginRequestParams st.username)] := by
  have hl := callBody_log_explicit { st with logged_in := false } env "Login"
    [("Action", "request"), ("Username", st.username),
     ("LoginPassword", ""), ("Captcha", "")]
  unfold loginPhase1
  simp only [callInner_method_Login, loginRequestParams]
  simp only [loginRequestParams] at hl
  rcases hO : callBody { st with logged_in := false } env "Login"
      [("Action", "request"), ("Username", st.username),
       ("LoginPassword", ""), ("Captcha", "")] with ⟨st1, env1, res1⟩
  rw [hO] at hl
  simp only at hl
  cases res1 with
  | error e => exact hl
  | ok resp =>
    simp only []
    repeat' split
    all_goals exact hl

theorem login_log_explicit (st : HNAPState) (env : Env) :
    ∃ t, (login st env).env.log = env.log ++
      Request.mk "Login"
        (sentHeaders { st with logged_in := false } env "Login")
        (loginRequestParams st.username) :: t := by
  have h1 := loginPhase1_log_explicit st env
  unfold login
  rcases hO : loginPhase1 st env with ⟨st1, env1, res1⟩
  rw [hO] at h1
  cases res1 with
  | error e1 => exact ⟨[], by simpa using h1⟩
  | ok c =>
    obtain ⟨t2, ht2⟩ := loginPhase2_log_mono st1 env1 c
    refine ⟨t2, ?_⟩
    simp only []
    rw [ht2, h1, List.append_assoc]
    rfl

theorem call_relogin_first_explicit (st : HNAPState) (env : Env)
    (m : String) (ps : Dict) (hpk : truthyOptStr st.private_key = false)
    (hm : m ≠ "Login") :
    ∃ t, (call st env m ps).env.log = env.log ++
      Request.mk "Login"
        (sentHeaders { st with logged_in := false } env "Login")
        (loginRequestParams st.username) :: t := by
  obtain ⟨t, hl⟩ := login_log_explicit st env
  unfold call
  rw [if_pos ⟨hpk, hm⟩]
  rcases hO : login st env with ⟨st1, env1, res1⟩
  rw [hO] at hl
  cases res1 with
  | error e1 => exact ⟨t, hl⟩
  | ok u =>
    obtain ⟨hdrs2, h2⟩ := callBody_log st1 env1 m ps
    refine ⟨t ++ [Request.mk m hdrs2 ps], ?_⟩
    simp only []
    rw [h2, hl]
    simp [List.append_assoc]

theorem sentHeaders_stale (st : HNAPState) (env : Env)
    (hpk : st.private_key = none) (hc : truthyOptX st.cookie = true)
    (ha : truthyOptStr st.auth_token = true) :
    dictGet (sentHeaders st env "Login") "Cookie" =
      some ("uid=" ++ (st.cookie.getD (.str "")).pyStr) ∧
    dictGet (sentHeaders st env "Login") "HNAP_AUTH" =
      some (st.auth_token.getD "" ++ " " ++ fmtOptNat st.timestamp) := by
  unfold sentHeaders
  rw [update_token_none st env "Login" hpk]
  constructor <;> rw [dictGet_dictSet_other _ _ _ _ (by decide)] <;>
    simp only [soap] <;> rw [if_pos hc, if_pos ha]
  · rw [dictGet_dictSet_other _ _ _ _ (by decide), dictGet_dictSet_self]
  · rw [dictGet_dictSet_self]

set_option maxRecDepth 1000000 in
/-- Claim C10: `_bad_response` leaves every session field except
`privateKey` unchanged (cookie, auth token, timestamp, `logged_in`,
actions, settings, transport headers), and because `soap()` injects
`Cookie` and `HNAP_AUTH` whenever those fields are truthy, the unsigned
phase-one `Login` request of the automatic re-login after a failure
goes out carrying the stale `Cookie` and `HNAP_AUTH` headers, as the
reuse scenario's request at log index 5 shows concretely. -/
theorem C10_bad_response_stale_headers (st st2 : HNAPState) (env : Env)
    (m : String) (ps : Dict) (hm : m ≠ "Login") :
    ((_bad_response st).1.private_key = none ∧
     (_bad_response st).1.cookie = st.cookie ∧
     (_bad_response st).1.auth_token = st.auth_token ∧
     (_bad_response st).1.timestamp = st.timestamp ∧
     (_bad_response st).1.logged_in = st.logged_in ∧
     (_bad_response st).1.actions = st.actions ∧
     (_bad_response st).1.settings = st.settings ∧
     (_bad_response st).1.client_headers = st.client_headers ∧
     (_bad_response st).2 = .exn "got error response from device") ∧
    (st2.private_key = none → truthyOptX st2.cookie = true →
     truthyOptStr st2.auth_token = true →
      ∃ t, (call st2 env m ps).env.log = env.log ++
          Request.mk "Login"
            (sentHeaders { st2 with logged_in := false } env "Login")
            (loginRequestParams st2.username) :: t ∧
        dictGet (sentHeaders { st2 with logged_in := false } env "Login")
          "Cookie" = some ("uid=" ++ (st2.cookie.getD (.str "")).pyStr) ∧
        dictGet (sentHeaders { st2 with logged_in := false } env "Login")
          "HNAP_AUTH" =
          some (st2.auth_token.getD "" ++ " " ++ fmtOptNat st2.timestamp)) ∧
    ((reuseRun3.env.log.get? 5).map fun r => dictGet r.headers "Cookie") =
      some (some "uid=sess1") ∧
    ((reuseRun3.env.log.get? 5).map fun r =>
      (dictGet r.headers "HNAP_AUTH").isSome) = some true := by
  refine ⟨⟨rfl, rfl, rfl, rfl, rfl, rfl, rfl, rfl, rfl⟩, ?_, rfl, rfl⟩
  intro hpk hc ha
  obtain ⟨t, hl⟩ := call_relogin_first_explicit st2 env m ps
    (by rw [hpk]; rfl) hm
  obtain ⟨hcook, hauth⟩ := sentHeaders_stale
    { st2 with logged_in := false } env hpk hc ha
  exact ⟨t, hl, hcook, hauth⟩

set_option maxRecDepth 1000000 in
/-- Witness for C10 at a concrete stale state. -/
theorem C10_bad_response_stale_headers_witness :
    ∃ t, (call ⟨"Admin", "0000", true, none, none, some (.str "sess1"),
        some "T", some 1000, none,
        [("Cookie", "uid=sess1"), ("HNAP_AUTH", "T 1000")]⟩
        ⟨[.netFail], [], []⟩ "X" []).env.log = [] ++
        Request.mk "Login"
          (sentHeaders ⟨"Admin", "0000", false, none, none,
            some (.str "sess1"), some "T", some 1000, none,
            [("Cookie", "uid=sess1"), ("HNAP_AUTH", "T 1000")]⟩
            ⟨[.netFail], [], []⟩ "Login")
          (loginRequestParams "Admin") :: t ∧
      dictGet (sentHeaders ⟨"Admin", "0000", false, none, none,
          some (.str "sess1"), some "T", some 1000, none,
          [("Cookie", "uid=sess1"), ("HNAP_AUTH", "T 1000")]⟩
          ⟨[.netFail], [], []⟩ "Login") "Cookie" = some "uid=sess1" ∧
      dictGet (sentHeaders ⟨"Admin", "0000", false, none, none,
          some (.str "sess1"), some "T", some 1000, none,
          [("Cookie", "uid=sess1"), ("HNAP_AUTH", "T 1000")]⟩
          ⟨[.netFail], [], []⟩ "Login") "HNAP_AUTH" = some "T 1000" := by
  have h := (C10_bad_response_stale_headers
    (HNAPState.init "Admin" "0000")
    ⟨"Admin", "0000", true, none, none, some (.str "sess1"), some "T",
     some 1000, none, [("Cookie", "uid=sess1"), ("HNAP_AUTH", "T 1000")]⟩
    ⟨[.netFail], [], []⟩ "X" [] (by decide)).2.1 rfl (by decide) (by decide)
  exact h

end HNAPClient

namespace HNAPClient

/-! ## Model validation: the re-login marker is dead code

`callInner` maps the implicit-login branch to the marker error
`reLoginUnreachable`.  The following lemmas prove the marker never
surfaces from `login` or `call`: inside `login`, every `call` either
uses the method `Login` or runs with the freshly derived (non-empty)
private key, exactly as in the source, so the stratified embedding
computes `HNAPClient.call` faithfully. -/

theorem loginCatch_marker (e : PyErr)
    (h : loginCatch e = .reLoginUnreachable) : e = .reLoginUnreachable := by
  cases e <;> first
    | exact h
    | exact nomatch h

theorem device_actions_no_marker (st : HNAPState) (env : Env)
    (htr : truthyOptStr st.private_key = true) :
    (device_actions st env).res ≠ Except.error .reLoginUnreachable := by
  intro h
  unfold device_actions at h
  rw [callInner_truthy _ _ _ _ htr] at h
  rcases hB : callBody st env "GetDeviceSettings" [] with ⟨st1, env1, res1⟩
  rw [hB] at h
  cases res1 with
  | error e1 =>
    injection h with hx
    have hse := callBody_error_shape st env "GetDeviceSettings" [] e1
      (by rw [hB])
    rw [hse] at hx
    exact nomatch hx
  | ok acts =>
    simp only [] at h
    split at h
    · rename_i heq
      injection h with hx
      rcases getItem_err _ _ _ heq with h4 | h4 <;> rw [h4] at hx <;>
        exact nomatch hx
    · split at h
      · rename_i heq
        injection h with hx
        rcases getItem_err _ _ _ heq with h4 | h4 <;> rw [h4] at hx <;>
          exact nomatch hx
      · split at h
        · rename_i heq
          injection h with hx
          rw [mapLastSegment_err _ _ heq] at hx
          exact nomatch hx
        · exact nomatch h

theorem loginPhase1_no_marker (st : HNAPState) (env : Env) :
    (loginPhase1 st env).res ≠ Except.error .reLoginUnreachable := by
  intro h
  unfold loginPhase1 at h
  simp only [callInner_method_Login] at h
  rcases hB : callBody { st with logged_in := false } env "Login"
      [("Action", "request"), ("Username", st.username),
       ("LoginPassword", ""), ("Captcha", "")] with ⟨st1, env1, res1⟩
  rw [hB] at h
  cases res1 with
  | error e1 =>
    injection h with hx
    have hse := callBody_error_shape { st with logged_in := false } env "Login"
      [("Action", "request"), ("Username", st.username),
       ("LoginPassword", ""), ("Captcha", "")] e1 (by rw [hB])
    rw [hse] at hx
    exact nomatch hx
  | ok resp =>
    simp only [] at h
    split at h
    · rename_i heq
      injection h with hx
      rcases getItem_err _ _ _ heq with h4 | h4 <;> rw [h4] at hx <;>
        exact nomatch hx
    · split at h
      · rename_i heq
        injection h with hx
        rcases getItem_err _ _ _ heq with h4 | h4 <;> rw [h4] at hx <;>
          exact nomatch hx
      · split at h
        · rename_i heq
          injection h with hx
          rcases getItem_err _ _ _ heq with h4 | h4 <;> rw [h4] at hx <;>
            exact nomatch hx
        · split at h
          · rename_i heq
            injection h with hx
            rw [asStr_err _ _ heq] at hx
            exact nomatch hx
          · split at h
            · rename_i heq
              injection h with hx
              rw [asStr_err _ _ heq] at hx
              exact nomatch hx
            · exact nomatch h

theorem loginPhase2_no_marker (st : HNAPState) (env : Env) (c : String)
    (htr : truthyOptStr st.private_key = true) :
    (loginPhase2 st env c).res ≠ Except.error .reLoginUnreachable := by
  intro h
  unfold loginPhase2 at h
  simp only [callInner_method_Login] at h
  rcases hB : callBody st env "Login"
      [("Action", "login"), ("Username", st.username),
       ("LoginPassword", _hmac (st.private_key.getD "") c), ("Captcha", "")]
    with ⟨st1, env1, res1⟩
  rw [hB] at h
  cases res1 with
  | error e1 =>
    injection h with hx
    have hm2 := loginCatch_marker _ hx
    have hse := callBody_error_shape st env "Login"
      [("Action", "login"), ("Username", st.username),
       ("LoginPassword", _hmac (st.private_key.getD "") c), ("Captcha", "")]
      e1 (by rw [hB])
    rw [hse] at hm2
    exact nomatch hm2
  | ok resp2 =>
    have hpk1 : st1.private_key = st.private_key := by
      have := callBody_ok_pk st env "Login"
        [("Action", "login"), ("Username", st.username),
         ("LoginPassword", _hmac (st.private_key.getD "") c), ("Captcha", "")]
        resp2 (by rw [hB])
      rw [hB] at this
      exact this
    simp only [] at h
    split at h
    · rename_i heq
      injection h with hx
      have := loginCatch_marker _ hx
      rcases getItem_err _ _ _ heq with h4 | h4 <;> rw [h4] at this <;>
        exact nomatch this
    · split at h
      · rename_i heq
        injection h with hx
        have := loginCatch_marker _ hx
        rw [asStr_err _ _ heq] at this
        exact nomatch this
      · split at h
        · injection h with hx
          have := loginCatch_marker _ hx
          exact nomatch this
        · split at h
          · rcases hD : device_actions st1 env1 with ⟨st2, env2, res2⟩
            rw [hD] at h
            cases res2 with
            | error e2 =>
              injection h with hx
              have := loginCatch_marker _ hx
              refine device_actions_no_marker st1 env1 ?_ (by rw [hD, this])
              rw [hpk1]
              exact htr
            | ok names => exact nomatch h
          · exact nomatch h

theorem login_no_marker (st : HNAPState) (env : Env) :
    (login st env).res ≠ Except.error .reLoginUnreachable := by
  intro h
  unfold login at h
  rcases hP : loginPhase1 st env with ⟨st1, env1, res1⟩
  rw [hP] at h
  cases res1 with
  | error e1 =>
    injection h with hx
    subst hx
    exact loginPhase1_no_marker st env (by rw [hP])
  | ok c =>
    obtain ⟨k, hk⟩ := loginPhase1_ok_pk st env c (by rw [hP])
    rw [hP] at hk
    refine loginPhase2_no_marker st1 env1 c ?_ h
    rw [show st1.private_key = some (_hmac k c) from hk]
    simp [truthyOptStr, pyTruthyStr, hmac_ne_empty]

theorem call_no_marker (st : HNAPState) (env : Env) (m : String)
    (ps : Dict) :
    (call st env m ps).res ≠ Except.error .reLoginUnreachable := by
  intro h
  unfold call at h
  split at h
  · rcases hL : login st env with ⟨st1, env1, res1⟩
    rw [hL] at h
    cases res1 with
    | error e1 =>
      injection h with hx
      subst hx
      exact login_no_marker st env (by rw [hL])
    | ok u =>
      simp only [] at h
      rcases callBody_res st1 env1 m ps with ⟨v, hv, -⟩ | ⟨he, -⟩
      · rw [hv] at h
        exact nomatch h
      · rw [he] at h
        injection h with hx
        exact nomatch hx
  · rcases callBody_res st env m ps with ⟨v, hv, -⟩ | ⟨he, -⟩
    · rw [hv] at h
      exact nomatch h
    · rw [he] at h
      injection h with hx
      exact nomatch hx

end HNAPClient

end DlinkSmartPlug
